import Mathlib

/-!
# Verification of the specs-nexus clearance / certificate workflow

This file gives a shallow embedding of the membership-clearance state
machine (`src/app/routes/membership.py`, `src/app/routes/cash_payments.py`,
`src/app/models.py`) and of the certificate issuance pipeline
(`src/app/routes/certificates.py`, `src/app/certificate_service.py`),
and proves or refutes the specification claims about them.

Modelling conventions:
* Machine timestamps are abstracted to a wall-clock `Nat` (the Manila wall
  time at which the handler runs) together with an awareness flag, mirroring
  the distinction between `datetime.now(tz)` (aware) and
  `datetime.now(tz).replace(tzinfo=None)` (naive) in the Python source.
* SQLAlchemy tables are lists of records; `query(...).first()` is `List.find?`
  over table order.
* Amounts are only ever compared to zero and copied in the source, so they
  are modelled as `Int`.
* A raised `HTTPException` is an `Except.error` carrying the HTTP status
  code and detail string; request handlers that end in an exception leave
  the database unchanged (the session is rolled back on close).
* On `commit`, the database re-checks the unique indexes declared in
  `models.py` (`uq_clearances_payment_method_reference_number` and
  `uq_clearances_receipt_number`) for every inserted row and for every row
  whose indexed columns were updated; an `IntegrityError` surfaces as a
  500 response and the transaction is rolled back.  These constraints span
  archived rows as well, because the SQL indexes do.
* The ORM bookkeeping column `last_updated` is not modelled: no claim
  refers to it and no business logic reads it.
-/

/-- A Python `datetime` value in Manila wall-clock time: `wall` is the
abstract instant, `aware` records whether the object carries `tzinfo`
(`datetime.now(tz)` is aware, `.replace(tzinfo=None)` makes it naive). -/
structure PyDT where
  wall : Nat
  aware : Bool
deriving DecidableEq, Repr

/-- Characters accepted by Python's `\s` regex class / `str.strip()`. -/
def isPySpace (c : Char) : Bool :=
  c = ' ' || c = '\t' || c = '\n' || c = '\r' || c = Char.ofNat 11 || c = Char.ofNat 12

/-- Python `str.strip()`: drop leading and trailing whitespace. -/
def pyStrip (s : String) : String :=
  String.mk (((s.toList.dropWhile isPySpace).reverse.dropWhile isPySpace).reverse)

/-- Python `str.lower()` (handlers only ever feed it ASCII). -/
def pyLower (s : String) : String :=
  String.mk (s.toList.map Char.toLower)

/-- Python `str.upper()` (handlers only ever feed it ASCII). -/
def pyUpper (s : String) : String :=
  String.mk (s.toList.map Char.toUpper)

/-- `re.sub(r'[\s\-]', '', s)`: delete every whitespace or dash character. -/
def cleanRefFn (s : String) : String :=
  String.mk (s.toList.filter (fun c => !(isPySpace c || c = '-')))

/-- Python `str.isalnum()` (false on the empty string). -/
def pyIsAlnum (s : String) : Bool :=
  s.toList ≠ [] && s.toList.all Char.isAlphanum

/-- Python `str.isdigit()` (false on the empty string). -/
def pyIsDigit (s : String) : Bool :=
  s.toList ≠ [] && s.toList.all Char.isDigit

/-- One row of the `clearances` table (`models.py`, class `Clearance`). -/
structure Clearance where
  id : Nat
  user_id : Nat
  requirement : String
  status : String
  payment_status : String
  receipt_path : Option String
  amount : Option Int
  archived : Bool
  payment_method : Option String
  reference_number : Option String
  receipt_number : Option String
  denial_reason : Option String
  payment_date : Option PyDT
  approval_date : Option PyDT
  approved_by : Option String
  verified_by : Option Nat
  verified_at : Option PyDT
deriving DecidableEq, Repr

/-- The slice of a `users` row the clearance handlers read. -/
structure PUser where
  id : Nat
  full_name : String
deriving DecidableEq, Repr

/-- The slice of an `officers` row the clearance handlers read. -/
structure POfficer where
  id : Nat
  full_name : String
deriving DecidableEq, Repr

/-- The database state seen by the clearance handlers. `nextId` is the
primary-key sequence for `clearances`. -/
structure ClearDB where
  users : List PUser
  clearances : List Clearance
  nextId : Nat
deriving DecidableEq, Repr

/-- An HTTPException: status code plus detail message. -/
structure PErr where
  code : Nat
  detail : String
deriving DecidableEq, Repr

/-- Two rows collide on the unique index
`uq_clearances_payment_method_reference_number` iff both columns are
non-null on both rows and equal (SQL `UNIQUE` ignores rows with a NULL). -/
def pairConflict (a b : Clearance) : Bool :=
  a.payment_method.isSome && a.reference_number.isSome &&
    a.payment_method = b.payment_method && a.reference_number = b.reference_number

/-- Two rows collide on `uq_clearances_receipt_number` iff both receipt
numbers are non-null and equal. -/
def receiptConflict (a b : Clearance) : Bool :=
  a.receipt_number.isSome && a.receipt_number = b.receipt_number

/-- After an UPDATE touching the `(payment_method, reference_number)`
index, row `c` must not collide with any other row of the table. -/
def pairOKIn (rows : List Clearance) (c : Clearance) : Bool :=
  rows.all (fun b => b.id = c.id || !(pairConflict c b))

/-- After an UPDATE touching the `receipt_number` index, row `c` must not
collide with any other row of the table. -/
def receiptOKIn (rows : List Clearance) (c : Clearance) : Bool :=
  rows.all (fun b => b.id = c.id || !(receiptConflict c b))

/-- SQLAlchemy identity-map update: writing the mutated record back into
the table (rows are addressed by primary key). -/
def setClearance (rows : List Clearance) (c : Clearance) : List Clearance :=
  rows.map (fun r => if r.id = c.id then c else r)

deriving instance DecidableEq for Except

/-! ## Clearance operations (membership.py, cash_payments.py) -/

/-- Request body of `PUT /membership/update_receipt` (membership.py,
`UpdateReceiptPayload`). -/
structure UpdateReceiptPayload where
  membership_id : Nat
  payment_type : String
  receipt_path : String
  reference_number : Option String
deriving DecidableEq, Repr

/-- Request body of the officer cash-confirmation endpoints (schemas.py,
`CashPaymentConfirmRequest`). -/
structure CashPayload where
  user_id : Nat
  requirement : String
  amount : Int
  receipt_number : String
deriving DecidableEq, Repr

/-- Request body of `PUT /membership/officer/verify/...` (membership.py,
`VerifyMembershipPayload`). -/
structure VerifyPayload where
  action : String
  denial_reason : Option String
  officer_name : Option String
deriving DecidableEq, Repr

/-- The validation block of `update_receipt` (membership.py lines
297-342): normalize the payment type, reject invalid or cash types,
require and normalize the reference number, enforce the gcash (13
alphanumeric) and paymaya (16 digit) formats.  On success returns the
normalized payment type and the uppercase cleaned reference number (the
reference stays the stripped input when the type is not digital,
mirroring the fall-through in the source). -/
def updateReceiptValidate (p : UpdateReceiptPayload) : Except PErr (String × String) :=
  if ¬(pyStrip (pyLower p.payment_type) = "gcash" ∨ pyStrip (pyLower p.payment_type) = "paymaya" ∨
      pyStrip (pyLower p.payment_type) = "cash") then
    .error ⟨400, "Invalid payment_type. Must be gcash, paymaya, or cash"⟩
  else if pyStrip (pyLower p.payment_type) = "cash" then
    .error ⟨400, "Cash payments do not require receipt upload. Please select Cash payment method and wait for officer confirmation."⟩
  else if pyStrip (pyLower p.payment_type) = "gcash" ∨ pyStrip (pyLower p.payment_type) = "paymaya" then
    if pyStrip (p.reference_number.getD "") = "" then
      .error ⟨400, "Reference number is required for GCash/PayMaya payments"⟩
    else if pyStrip (pyLower p.payment_type) = "gcash" ∧
        (cleanRefFn (pyStrip (p.reference_number.getD ""))).length ≠ 13 then
      .error ⟨400, "GCash reference number must be exactly 13 characters"⟩
    else if pyStrip (pyLower p.payment_type) = "gcash" ∧
        ¬ pyIsAlnum (cleanRefFn (pyStrip (p.reference_number.getD ""))) then
      .error ⟨400, "GCash reference number must contain only letters and numbers"⟩
    else if pyStrip (pyLower p.payment_type) = "paymaya" ∧
        (cleanRefFn (pyStrip (p.reference_number.getD ""))).length ≠ 16 then
      .error ⟨400, "Maya reference number must be exactly 16 digits"⟩
    else if pyStrip (pyLower p.payment_type) = "paymaya" ∧
        ¬ pyIsDigit (cleanRefFn (pyStrip (p.reference_number.getD ""))) then
      .error ⟨400, "Maya reference number must contain only numbers"⟩
    else
      .ok (pyStrip (pyLower p.payment_type), pyUpper (cleanRefFn (pyStrip (p.reference_number.getD ""))))
  else
    .ok (pyStrip (pyLower p.payment_type), pyStrip (p.reference_number.getD ""))

/-- The field updates of `update_receipt` (membership.py lines 367-374). -/
def submitFields (m : Clearance) (receipt_path payment_type reference_number : String)
    (now : Nat) : Clearance :=
  { m with
    receipt_path := some receipt_path
    payment_status := "Verifying"
    status := "Processing"
    payment_method := some payment_type
    reference_number :=
      if payment_type = "gcash" ∨ payment_type = "paymaya" then some reference_number else none
    payment_date := some ⟨now, false⟩ }

/-- `update_receipt` (membership.py lines 290-379): user submits a digital
receipt for one of their memberships.  `now` is the Manila wall clock at
the moment the handler stamps `payment_date`. -/
def update_receipt (db : ClearDB) (currentUserId : Nat) (p : UpdateReceiptPayload)
    (now : Nat) : Except PErr (ClearDB × Clearance) :=
  match updateReceiptValidate p with
  | .error e => .error e
  | .ok (payment_type, reference_number) =>
    match db.clearances.find? (fun c =>
        c.id = p.membership_id && c.user_id = currentUserId && !c.archived) with
    | none => .error ⟨404, "Membership not found"⟩
    | some membership =>
      match (if payment_type = "gcash" ∨ payment_type = "paymaya" then
          db.clearances.find? (fun c =>
            !c.archived && c.payment_method = some payment_type &&
            c.reference_number = some reference_number && c.id ≠ membership.id)
        else none) with
      | some _ => .error ⟨409, "Reference number already used. Please double-check your payment and enter the correct ref no."⟩
      | none =>
        if pairOKIn
            (setClearance db.clearances
              (submitFields membership p.receipt_path payment_type reference_number now))
            (submitFields membership p.receipt_path payment_type reference_number now) then
          .ok ({ db with clearances := setClearance db.clearances (submitFields membership p.receipt_path payment_type reference_number now) }, submitFields membership p.receipt_path payment_type reference_number now)
        else
          .error ⟨500, "Internal Server Error"⟩

/-- The field updates of `select_cash_payment` (membership.py 400-408). -/
def selectCashFields (m : Clearance) (now : Nat) : Clearance :=
  { m with
    payment_method := some "cash"
    payment_status := "Pending"
    status := "Processing"
    receipt_path := none
    reference_number := none
    denial_reason := none
    payment_date := some ⟨now, false⟩ }

/-- `select_cash_payment` (membership.py lines 381-412): user declares the
intent to pay this membership in cash. -/
def select_cash_payment (db : ClearDB) (currentUserId : Nat) (membership_id : Nat)
    (now : Nat) : Except PErr (ClearDB × Clearance) :=
  match db.clearances.find? (fun c =>
      c.id = membership_id && c.user_id = currentUserId && !c.archived) with
  | none => .error ⟨404, "Membership not found"⟩
  | some membership =>
    if membership.payment_status = "Paid" then
      .error ⟨409, "Membership is already paid"⟩
    else
      if pairOKIn (setClearance db.clearances (selectCashFields membership now))
          (selectCashFields membership now) then
        .ok ({ db with clearances := setClearance db.clearances (selectCashFields membership now) }, selectCashFields membership now)
      else
        .error ⟨500, "Internal Server Error"⟩

/-- The shared validation block of the two officer cash-confirmation
endpoints (cash_payments.py lines 30-43, membership.py lines 420-433):
require a non-empty receipt number, a valid semester tag, and a positive
amount.  Returns the stripped receipt number and requirement. -/
def cashValidate (p : CashPayload) : Except PErr (String × String) :=
  if pyStrip p.receipt_number = "" then
    .error ⟨400, "Receipt/reference number is required"⟩
  else if ¬(pyStrip p.requirement = "1st Semester Membership" ∨
      pyStrip p.requirement = "2nd Semester Membership") then
    .error ⟨400, "Invalid requirement. Must be one of: 1st Semester Membership, 2nd Semester Membership"⟩
  else if p.amount ≤ 0 then
    .error ⟨400, "Amount must be greater than 0"⟩
  else
    .ok (pyStrip p.receipt_number, pyStrip p.requirement)

/-- The field updates of `officer_cash_payment` (cash_payments.py lines
69-81): everything is stamped with the *naive* Manila time, including
`payment_date`. -/
def cashFieldsNaive (m : Clearance) (officer : POfficer) (amount : Int)
    (receipt_number : String) (now : Nat) : Clearance :=
  { m with
    amount := some amount
    payment_method := some "cash"
    receipt_number := some receipt_number
    payment_status := "Paid"
    status := "Clear"
    verified_by := some officer.id
    verified_at := some ⟨now, false⟩
    payment_date := some ⟨now, false⟩
    approval_date := some ⟨now, false⟩
    approved_by := some officer.full_name
    denial_reason := none }

/-- The field updates of `officer_confirm_cash_payment` (membership.py
lines 459-468): `verified_at` and `approval_date` are stored *timezone
aware* and `payment_date` is left untouched. -/
def cashFieldsAware (m : Clearance) (officer : POfficer) (amount : Int)
    (receipt_number : String) (now : Nat) : Clearance :=
  { m with
    amount := some amount
    payment_method := some "cash"
    receipt_number := some receipt_number
    payment_status := "Paid"
    status := "Clear"
    verified_by := some officer.id
    verified_at := some ⟨now, true⟩
    approval_date := some ⟨now, true⟩
    approved_by := some officer.full_name
    denial_reason := none }

/-- The shared transaction body of the two cash-confirmation endpoints
(cash_payments.py lines 45-93, membership.py lines 435-480), parameterized
by the field-update function of the endpoint: pre-check the receipt number
against active rows, lock and fetch the target membership, reject if paid
or mid-digital-flow, apply the fields, commit. -/
def cashConfirmCore (fields : Clearance → POfficer → Int → String → Nat → Clearance)
    (db : ClearDB) (officer : POfficer) (p : CashPayload) (now : Nat) :
    Except PErr (ClearDB × Clearance) :=
  match cashValidate p with
  | .error e => .error e
  | .ok (receipt_number, requirement) =>
    match db.clearances.find? (fun c =>
        c.receipt_number = some receipt_number && !c.archived) with
    | some _ => .error ⟨409, "Receipt/reference number already used"⟩
    | none =>
      match db.clearances.find? (fun c =>
          c.user_id = p.user_id && c.requirement = requirement && !c.archived) with
      | none => .error ⟨404, "Membership record not found for user/semester"⟩
      | some membership =>
        if membership.payment_status = "Paid" then
          .error ⟨409, "Membership is already paid"⟩
        else if ¬(membership.payment_method = none ∨ membership.payment_method = some "cash") then
          .error ⟨409, "Membership is not marked as cash payment"⟩
        else
          if pairOKIn (setClearance db.clearances
                (fields membership officer p.amount receipt_number now))
              (fields membership officer p.amount receipt_number now) &&
             receiptOKIn (setClearance db.clearances
                (fields membership officer p.amount receipt_number now))
              (fields membership officer p.amount receipt_number now) then
            .ok ({ db with clearances := setClearance db.clearances (fields membership officer p.amount receipt_number now) }, fields membership officer p.amount receipt_number now)
          else
            .error ⟨500, "Failed to confirm cash payment"⟩

/-- `officer_cash_payment` (cash_payments.py lines 24-93). -/
def officer_cash_payment (db : ClearDB) (officer : POfficer) (p : CashPayload)
    (now : Nat) : Except PErr (ClearDB × Clearance) :=
  cashConfirmCore cashFieldsNaive db officer p now

/-- `officer_confirm_cash_payment` (membership.py lines 414-480). -/
def officer_confirm_cash_payment (db : ClearDB) (officer : POfficer) (p : CashPayload)
    (now : Nat) : Except PErr (ClearDB × Clearance) :=
  cashConfirmCore cashFieldsAware db officer p now

/-- The approve-branch field updates of `officer_verify_membership`
(membership.py lines 557-564). -/
def approveFields (m : Clearance) (officer_name : Option String) (now : Nat) : Clearance :=
  { m with
    payment_status := "Paid"
    status := "Clear"
    approval_date := some ⟨now, false⟩
    approved_by := officer_name
    denial_reason := none }

/-- The deny-branch field updates of `officer_verify_membership`
(membership.py lines 565-571): full reset of the payment attempt; note
that `reference_number`, `receipt_number`, `amount` and the approval and
verification metadata are left untouched. -/
def denyFields (m : Clearance) (denial_reason : Option String) : Clearance :=
  { m with
    payment_status := "Not Paid"
    status := "Not Yet Cleared"
    receipt_path := none
    payment_method := none
    denial_reason := denial_reason
    payment_date := none }

/-- `officer_verify_membership` (membership.py lines 537-576): officer
approves or denies a submitted receipt.  Approving touches no unique-index
column; denying rewrites `payment_method` (to NULL, which cannot collide). -/
def officer_verify_membership (db : ClearDB) (membership_id : Nat) (p : VerifyPayload)
    (now : Nat) : Except PErr (ClearDB × Clearance) :=
  if ¬(p.action = "approve" ∨ p.action = "deny") then
    .error ⟨400, "Invalid action. Use approve or deny."⟩
  else
    match db.clearances.find? (fun c => c.id = membership_id && !c.archived) with
    | none => .error ⟨404, "Membership record not found"⟩
    | some membership =>
      if p.action = "approve" then
        .ok ({ db with clearances := setClearance db.clearances (approveFields membership p.officer_name now) }, approveFields membership p.officer_name now)
      else if pairOKIn (setClearance db.clearances (denyFields membership p.denial_reason)) (denyFields membership p.denial_reason) then
        .ok ({ db with clearances := setClearance db.clearances (denyFields membership p.denial_reason) }, denyFields membership p.denial_reason)
      else
        .error ⟨500, "Internal Server Error"⟩

/-- The record inserted by `officer_create_membership` (membership.py
lines 517-525): `payment_status` is whatever string the form supplied,
`receipt_path` is the empty string, no payment references. -/
def newMembershipRec (idv user_id : Nat) (amount : Int)
    (payment_status requirement : String) : Clearance :=
  { id := idv
    user_id := user_id
    requirement := requirement
    status := "Not Yet Cleared"
    payment_status := payment_status
    receipt_path := some ""
    amount := some amount
    archived := false
    payment_method := none
    reference_number := none
    receipt_number := none
    denial_reason := none
    payment_date := none
    approval_date := none
    approved_by := none
    verified_by := none
    verified_at := none }

/-- `officer_create_membership` (membership.py lines 501-530): officer
creates one membership record for one user; `payment_status` is taken
verbatim from the submitted form. -/
def officer_create_membership (db : ClearDB) (user_id : Nat) (amount : Int)
    (payment_status requirement : String) :
    Except PErr (ClearDB × Clearance) :=
  match db.users.find? (fun u => u.id = user_id) with
  | none => .error ⟨404, "User not found"⟩
  | some _ =>
    if pairOKIn (db.clearances ++ [newMembershipRec db.nextId user_id amount payment_status requirement]) (newMembershipRec db.nextId user_id amount payment_status requirement) &&
       receiptOKIn (db.clearances ++ [newMembershipRec db.nextId user_id amount payment_status requirement]) (newMembershipRec db.nextId user_id amount payment_status requirement) then
      .ok ({ db with clearances := db.clearances ++ [newMembershipRec db.nextId user_id amount payment_status requirement], nextId := db.nextId + 1 }, newMembershipRec db.nextId user_id amount payment_status requirement)
    else
      .error ⟨500, "Internal Server Error"⟩

/-- The record `create_officer_requirement` inserts for one user
(membership.py lines 664-672). -/
def freshRequirementRec (idv user_id : Nat) (requirement : String) (amount : Int) :
    Clearance :=
  { id := idv
    user_id := user_id
    requirement := requirement
    status := "Not Yet Cleared"
    payment_status := "Not Paid"
    receipt_path := none
    amount := some amount
    archived := false
    payment_method := none
    reference_number := none
    receipt_number := none
    denial_reason := none
    payment_date := none
    approval_date := none
    approved_by := none
    verified_by := none
    verified_at := none }

/-- The fan-out loop of `create_officer_requirement`: for each user without
an active record for the requirement, insert a fresh one. -/
def fanOut (requirement : String) (amount : Int) :
    List PUser → List Clearance → Nat → List Clearance × Nat × Nat
  | [], rows, nid => (rows, nid, 0)
  | u :: rest, rows, nid =>
    if (rows.find? (fun c =>
        c.user_id = u.id && c.requirement = requirement && !c.archived)).isSome then
      fanOut requirement amount rest rows nid
    else
      let (rows', nid', k) :=
        fanOut requirement amount rest
          (rows ++ [freshRequirementRec nid u.id requirement amount]) (nid + 1)
      (rows', nid', k + 1)

/-- `create_officer_requirement` (membership.py lines 629-691): fan a new
requirement out to every user that does not already have an active record
for it; error if nothing was created.  New rows carry no reference or
receipt numbers, so their unique-index checks pass vacuously. -/
def create_officer_requirement (db : ClearDB) (requirement : String) (amount : Int) :
    Except PErr ClearDB :=
  if ¬(pyStrip requirement = "1st Semester Membership" ∨
      pyStrip requirement = "2nd Semester Membership") then
    .error ⟨400, "Invalid requirement. Must be one of: 1st Semester Membership, 2nd Semester Membership"⟩
  else if amount ≤ 0 then
    .error ⟨400, "Amount must be greater than 0"⟩
  else if db.users = [] then
    .error ⟨404, "No users found in the database"⟩
  else if (fanOut (pyStrip requirement) amount db.users db.clearances db.nextId).2.2 = 0 then
    .error ⟨400, "Requirement already exists for all users"⟩
  else
    .ok { db with
          clearances := (fanOut (pyStrip requirement) amount db.users db.clearances db.nextId).1,
          nextId := (fanOut (pyStrip requirement) amount db.users db.clearances db.nextId).2.1 }

/-- `update_officer_requirement` (membership.py lines 593-610): set the
amount on every active record of a requirement. -/
def update_officer_requirement (db : ClearDB) (requirement : String)
    (amount : Option Int) : Except PErr ClearDB :=
  if (db.clearances.find? (fun c => c.requirement = requirement && !c.archived)).isNone then
    .error ⟨404, "Requirement not found"⟩
  else
    .ok { db with clearances := db.clearances.map (fun c =>
      if c.requirement = requirement && !c.archived then
        match amount with
        | some a => { c with amount := some a }
        | none => c
      else c) }

/-- `delete_officer_requirement` (membership.py lines 612-627): archive
every active record of a requirement. -/
def delete_officer_requirement (db : ClearDB) (requirement : String) :
    Except PErr ClearDB :=
  if (db.clearances.find? (fun c => c.requirement = requirement && !c.archived)).isNone then
    .error ⟨404, "Requirement not found"⟩
  else
    .ok { db with clearances := db.clearances.map (fun c =>
      if c.requirement = requirement && !c.archived then { c with archived := true } else c) }

/-! ## Certificate issuance pipeline (certificate_service.py, certificates.py) -/

/-- The slice of a `users` row the certificate pipeline reads. -/
structure CUser where
  id : Nat
  full_name : String
deriving DecidableEq, Repr

/-- The slice of an `events` row the certificate pipeline reads. -/
structure CEvent where
  id : Nat
  title : String
  archived : Bool
deriving DecidableEq, Repr

/-- The slice of a `certificate_templates` row the pipeline reads. -/
structure CTemplate where
  event_id : Nat
  template_url : String
  archived : Bool
deriving DecidableEq, Repr

/-- One row of `event_attendance` (models.py, class `EventAttendance`). -/
structure Attendance where
  event_id : Nat
  user_id : Nat
  checked_in_at : Option PyDT
  evaluation_completed : Bool
deriving DecidableEq, Repr

/-- One row of `certificates` (models.py, class `ECertificate`). -/
structure Cert where
  user_id : Nat
  event_id : Nat
  certificate_url : String
  file_name : String
  issued_date : PyDT
  certificate_code : String
deriving DecidableEq, Repr

/-- The database state seen by the certificate pipeline. -/
structure CertDB where
  users : List CUser
  events : List CEvent
  templates : List CTemplate
  attendance : List Attendance
  certs : List Cert
deriving DecidableEq, Repr

/-- Regex `\w` over ASCII: letters, digits and underscore. -/
def isWordChar (c : Char) : Bool :=
  c.isAlphanum || c = '_'

/-- Second substitution of `sanitize_event_title`: collapse each maximal
run of whitespace/dash characters into one underscore
(`re.sub(r'[-\s]+', '_', s)`).  `inRun` tracks whether the previous
character belonged to a run already replaced. -/
def collapseRunsAux : Bool → List Char → List Char
  | _, [] => []
  | inRun, c :: rest =>
    if isPySpace c || c = '-' then
      if inRun then collapseRunsAux true rest
      else '_' :: collapseRunsAux true rest
    else c :: collapseRunsAux false rest

def collapseRuns (l : List Char) : List Char :=
  collapseRunsAux false l

/-- `sanitize_event_title` (certificate_service.py lines 27-32): keep only
word/whitespace/dash characters, collapse whitespace/dash runs to an
underscore, truncate to 50 characters. -/
def sanitize_event_title (s : String) : String :=
  String.mk ((collapseRuns (s.toList.filter
    (fun c => isWordChar c || isPySpace c || c = '-'))).take 50)

/-- `generate_certificate_filename` (certificate_service.py lines 216-220). -/
def generate_certificate_filename (event_title full_name : String) : String :=
  "SpecsNexus_" ++ sanitize_event_title event_title ++ "_" ++
    sanitize_event_title full_name ++ ".pdf"

/-- `get_eligible_users` (certificate_service.py lines 166-213): users with
a check-in or a completed evaluation for the event, minus users that
already hold an `ECertificate` for it. -/
def get_eligible_users (db : CertDB) (eid : Nat) : Except String (List CUser) :=
  match db.events.find? (fun e => e.id = eid && !e.archived) with
  | none => .error "Event not found or is archived"
  | some _ =>
    let eligIds := (db.attendance.filter (fun a => a.event_id = eid &&
        (a.checked_in_at.isSome || a.evaluation_completed))).map (·.user_id)
    if eligIds = [] then .ok []
    else
      let certIds := (db.certs.filter (fun c => c.event_id = eid)).map (·.user_id)
      let newIds := eligIds.filter (fun (i : Nat) => !(decide (i ∈ certIds)))
      if newIds = [] then .ok []
      else .ok (db.users.filter (fun u => decide (u.id ∈ newIds)))

/-- The external effects consumed by one `generate_bulk_certificates` call.
`render`, `toPdf` and `upload` are keyed by user id (they consume only the
user's name and the shared template); `codeStream uid` enumerates the
random draws of `generate_certificate_code` for that user; `tsStep` is the
outcome of evaluating the issuance-timestamp expression
`datetime.now(timezone(timedelta(hours=8))).replace(tzinfo=None)`
(certificates.py line 242). -/
structure BulkOracle where
  templateLoad : Except String Unit
  render : Nat → Except String Unit
  toPdf : Nat → Except String Unit
  upload : Nat → Except String String
  tsStep : Except String PyDT
  codeStream : Nat → Nat → String

/-- certificates.py line 242 in the source as shipped: the module imports
only `datetime` and `timezone` from `datetime` (line 5), so the name
`timedelta` is unbound and evaluating the expression raises `NameError`
inside the per-user `try` block. -/
def tsStepSrc : Except String PyDT :=
  .error "NameError: name timedelta is not defined"

/-- The intended issuance-timestamp step, had `timedelta` been imported:
the naive Manila wall-clock time. -/
def tsStepFixed (now : Nat) : Except String PyDT :=
  .ok ⟨now, false⟩

/-- The `while` collision loop of certificates.py lines 215-220: keep
drawing codes until one is not among the existing `certificate_code`s.
`fuel` bounds the number of draws; `none` means the loop never exits. -/
def findFresh : Nat → (Nat → String) → List String → Nat → Option String
  | 0, _, _, _ => none
  | fuel + 1, stream, used, i =>
    if stream i ∈ used then findFresh fuel stream used (i + 1) else some (stream i)

/-- The first error raised by the per-user steps (b)-(e) of the bulk loop
for a given user, if any; independent of the shared collision state. -/
def userErr (o : BulkOracle) (uid : Nat) : Option String :=
  match o.render uid with
  | .error e => some e
  | .ok _ =>
    match o.toPdf uid with
    | .error e => some e
    | .ok _ =>
      match o.upload uid with
      | .error e => some e
      | .ok _ =>
        match o.tsStep with
        | .error e => some e
        | .ok _ => none

/-- The body of the per-user `try` block of `generate_bulk_certificates`
(certificates.py lines 214-253): draw a fresh verification code, render,
convert, upload, build the `ECertificate` row.  `none` = the collision
loop diverges; `some (.error e)` = the exception caught at line 258;
`some (.ok cert)` = the row committed for this user. -/
def perUser (o : BulkOracle) (fuel eid : Nat) (eventTitle : String)
    (used : List String) (u : CUser) : Option (Except String Cert) :=
  match findFresh fuel (o.codeStream u.id) used 0 with
  | none => none
  | some code =>
    match o.render u.id with
    | .error e => some (.error e)
    | .ok _ =>
      match o.toPdf u.id with
      | .error e => some (.error e)
      | .ok _ =>
        match o.upload u.id with
        | .error e => some (.error e)
        | .ok url =>
          match o.tsStep with
          | .error e => some (.error e)
          | .ok ts =>
            some (.ok { user_id := u.id, event_id := eid, certificate_url := url,
                        file_name := generate_certificate_filename eventTitle u.full_name,
                        issued_date := ts, certificate_code := code })

/-- A member of the `failed_users` report list (certificates.py line 260). -/
structure FailedEntry where
  user_id : Nat
  full_name : String
  error : String
deriving DecidableEq, Repr

/-- The `for user in eligible_users` loop of `generate_bulk_certificates`:
a failure is recorded and rolled back, a success is committed, and the
loop continues either way. -/
def bulkLoop (o : BulkOracle) (fuel eid : Nat) (title : String) :
    List CUser → List Cert → Nat → Nat → List FailedEntry →
    Option (List Cert × Nat × Nat × List FailedEntry)
  | [], certs, g, f, fus => some (certs, g, f, fus)
  | u :: rest, certs, g, f, fus =>
    match perUser o fuel eid title (certs.map (·.certificate_code)) u with
    | none => none
    | some (.error e) =>
      bulkLoop o fuel eid title rest certs g (f + 1) (fus ++ [⟨u.id, u.full_name, e⟩])
    | some (.ok cert) =>
      bulkLoop o fuel eid title rest (certs ++ [cert]) (g + 1) f fus

/-- The aggregate report returned by `generate_bulk_certificates`.  (On the
empty-eligible early return the source response carries a `skipped_count`
field and no `failed_users` key; both report shapes are represented here
with `failed_users = []`.) -/
structure BulkReport where
  generated_count : Nat
  failed_count : Nat
  failed_users : List FailedEntry
  eligible_user_ids : List Nat
deriving DecidableEq, Repr

/-- `generate_bulk_certificates` (certificates.py lines 156-273).  `none`
means the call never returns (the collision loop diverged for some user). -/
def generate_bulk_certificates (o : BulkOracle) (fuel : Nat) (db : CertDB) (eid : Nat) :
    Option (Except PErr (BulkReport × CertDB)) :=
  match db.events.find? (fun e => e.id = eid && !e.archived) with
  | none => some (.error ⟨404, "Event not found or is archived"⟩)
  | some event =>
    match db.templates.find? (fun t => t.event_id = eid && !t.archived) with
    | none => some (.error ⟨400, "No active certificate template found for this event. Please upload a template first."⟩)
    | some _ =>
      match get_eligible_users db eid with
      | .error e => some (.error ⟨400, e⟩)
      | .ok eligible =>
        if eligible = [] then
          some (.ok ({ generated_count := 0, failed_count := 0, failed_users := [],
                       eligible_user_ids := [] }, db))
        else
          match o.templateLoad with
          | .error e => some (.error ⟨500, "Failed to load certificate template: " ++ e⟩)
          | .ok _ =>
            match bulkLoop o fuel eid event.title eligible db.certs 0 0 [] with
            | none => none
            | some (certs', g, f, fus) =>
              some (.ok ({ generated_count := g, failed_count := f, failed_users := fus,
                           eligible_user_ids := eligible.map (·.id) },
                         { db with certs := certs' }))

/-! ## The clearance state machine as a step relation -/

/-- One clearance-mutating request.  Each constructor is one of the route
handlers that writes to the `clearances` table. -/
inductive COp where
  | submitReceipt (uid : Nat) (p : UpdateReceiptPayload)
  | selectCash (uid mid : Nat)
  | cashPayment (off : POfficer) (p : CashPayload)
  | confirmCash (off : POfficer) (p : CashPayload)
  | verifyOp (mid : Nat) (p : VerifyPayload)
  | createMembership (uid : Nat) (amount : Int) (payment_status requirement : String)
  | createRequirement (requirement : String) (amount : Int)
  | updateRequirement (requirement : String) (amount : Option Int)
  | archiveRequirement (requirement : String)

/-- Executing one request at wall-clock `now`: on an error response the
transaction is rolled back and the database is unchanged. -/
def stepOp (op : COp) (now : Nat) (db : ClearDB) : ClearDB :=
  match op with
  | .submitReceipt uid p =>
    match update_receipt db uid p now with | .ok (d, _) => d | .error _ => db
  | .selectCash uid mid =>
    match select_cash_payment db uid mid now with | .ok (d, _) => d | .error _ => db
  | .cashPayment off p =>
    match officer_cash_payment db off p now with | .ok (d, _) => d | .error _ => db
  | .confirmCash off p =>
    match officer_confirm_cash_payment db off p now with | .ok (d, _) => d | .error _ => db
  | .verifyOp mid p =>
    match officer_verify_membership db mid p now with | .ok (d, _) => d | .error _ => db
  | .createMembership uid a ps req =>
    match officer_create_membership db uid a ps req with | .ok (d, _) => d | .error _ => db
  | .createRequirement req a =>
    match create_officer_requirement db req a with | .ok d => d | .error _ => db
  | .updateRequirement req a =>
    match update_officer_requirement db req a with | .ok d => d | .error _ => db
  | .archiveRequirement req =>
    match delete_officer_requirement db req with | .ok d => d | .error _ => db

/-- Running a sequence of requests, each tagged with its wall-clock time. -/
def runOps (ops : List (COp × Nat)) (db : ClearDB) : ClearDB :=
  ops.foldl (fun d oc => stepOp oc.1 oc.2 d) db

/-- The uniqueness invariant of the spec on the active rows: two distinct
active rows never collide on `(payment_method, reference_number)` with
both columns non-null, and never collide on a non-null `receipt_number`.
(`pairConflict`/`receiptConflict` are exactly the both-non-null-and-equal
collision tests.) -/
def activeUnique (rows : List Clearance) : Prop :=
  ∀ a ∈ rows, ∀ b ∈ rows, a.archived = false → b.archived = false → a.id ≠ b.id →
    pairConflict a b = false ∧ receiptConflict a b = false

theorem pairConflict_symm {a b : Clearance} (h : pairConflict a b = true) :
    pairConflict b a = true := by
  simp only [pairConflict, Bool.and_eq_true, decide_eq_true_eq] at h ⊢
  obtain ⟨⟨⟨hm, hr⟩, hmeq⟩, hreq⟩ := h
  refine ⟨⟨⟨?_, ?_⟩, hmeq.symm⟩, hreq.symm⟩
  · rw [← hmeq]; exact hm
  · rw [← hreq]; exact hr

theorem receiptConflict_symm {a b : Clearance} (h : receiptConflict a b = true) :
    receiptConflict b a = true := by
  simp only [receiptConflict, Bool.and_eq_true, decide_eq_true_eq] at h ⊢
  obtain ⟨hm, hmeq⟩ := h
  exact ⟨by rw [← hmeq]; exact hm, hmeq.symm⟩

theorem pairConflict_of_none {a b : Clearance}
    (h : a.payment_method = none ∨ b.payment_method = none) :
    pairConflict a b = false := by
  rcases h with h | h
  · simp [pairConflict, h]
  · simp only [pairConflict, h, Bool.and_eq_true, Bool.and_eq_false_iff]
    by_cases hm : a.payment_method = none
    · left; left; simp [hm]
    · left; right
      simp only [decide_eq_false_iff_not]
      intro hc
      exact hm (by rw [hc])

theorem receiptConflict_of_none {a b : Clearance}
    (h : a.receipt_number = none ∨ b.receipt_number = none) :
    receiptConflict a b = false := by
  rcases h with h | h
  · simp [receiptConflict, h]
  · simp only [receiptConflict, Bool.and_eq_false_iff]
    by_cases hm : a.receipt_number = none
    · left; simp [hm]
    · right
      simp only [decide_eq_false_iff_not, h]
      intro hc
      exact hm (by rw [hc])

/-- `pairConflict` only reads the two index columns of each argument. -/
theorem pairConflict_congr {a a' b : Clearance}
    (hm : a'.payment_method = a.payment_method)
    (hr : a'.reference_number = a.reference_number) :
    pairConflict a' b = pairConflict a b := by
  simp [pairConflict, hm, hr]

theorem receiptConflict_congr {a a' b : Clearance}
    (hr : a'.receipt_number = a.receipt_number) :
    receiptConflict a' b = receiptConflict a b := by
  simp [receiptConflict, hr]

theorem mem_setClearance {rows : List Clearance} {c x : Clearance}
    (hx : x ∈ setClearance rows c) :
    x = c ∨ (x ∈ rows ∧ x.id ≠ c.id) := by
  simp only [setClearance, List.mem_map] at hx
  obtain ⟨r, hr, hrx⟩ := hx
  by_cases hid : r.id = c.id
  · left; simp [hid] at hrx; exact hrx.symm
  · right
    simp only [hid, if_false] at hrx
    subst hrx
    exact ⟨hr, hid⟩

/-- Preservation of the uniqueness invariant by a single-row UPDATE: either
the database re-checked the touched index for the new row, or the row's
indexed columns are unchanged from the old row. -/
theorem activeUnique_set {rows : List Clearance} {r c : Clearance}
    (hinv : activeUnique rows) (hr : r ∈ rows) (hid : c.id = r.id)
    (harc : c.archived = r.archived)
    (hpair : pairOKIn (setClearance rows c) c = true ∨
      (c.payment_method = r.payment_method ∧ c.reference_number = r.reference_number))
    (hrec : receiptOKIn (setClearance rows c) c = true ∨
      c.receipt_number = r.receipt_number) :
    activeUnique (setClearance rows c) := by
  have key : ∀ b ∈ setClearance rows c, b ∈ rows → b.id ≠ c.id →
      c.archived = false → b.archived = false →
      pairConflict c b = false ∧ receiptConflict c b = false := by
    intro b hbset hbrows hbid hca hba
    constructor
    · rcases hpair with hok | ⟨hm, hrf⟩
      · have := (List.all_eq_true.1 hok) b hbset
        simp only [Bool.or_eq_true, decide_eq_true_eq, Bool.not_eq_eq_eq_not,
          Bool.not_true] at this
        rcases this with h | h
        · exact absurd h hbid
        · simpa using h
      · rw [pairConflict_congr hm hrf]
        exact (hinv r hr b hbrows (by rw [← harc, hca]) hba
          (by rw [← hid]; exact Ne.symm hbid)).1
    · rcases hrec with hok | hrf
      · have := (List.all_eq_true.1 hok) b hbset
        simp only [Bool.or_eq_true, decide_eq_true_eq, Bool.not_eq_eq_eq_not,
          Bool.not_true] at this
        rcases this with h | h
        · exact absurd h hbid
        · simpa using h
      · rw [receiptConflict_congr hrf]
        exact (hinv r hr b hbrows (by rw [← harc, hca]) hba
          (by rw [← hid]; exact Ne.symm hbid)).2
  intro a ha b hb haa hba hab
  rcases mem_setClearance ha with rfl | ⟨harows, haid⟩
  · rcases mem_setClearance hb with rfl | ⟨hbrows, hbid⟩
    · exact absurd rfl hab
    · exact key b hb hbrows hbid haa hba
  · rcases mem_setClearance hb with rfl | ⟨hbrows, hbid⟩
    · have hc := key a ha harows haid hba haa
      constructor
      · cases hpc : pairConflict a b
        · rfl
        · exact absurd (pairConflict_symm hpc) (by simp [hc.1])
      · cases hpc : receiptConflict a b
        · rfl
        · exact absurd (receiptConflict_symm hpc) (by simp [hc.2])
    · exact hinv a harows b hbrows haa hba hab

/-- Appending rows that carry no payment method, reference number or
receipt number (freshly created records) preserves the invariant. -/
theorem activeUnique_append_none {rows news : List Clearance}
    (hinv : activeUnique rows)
    (hnone : ∀ n ∈ news, n.payment_method = none ∧ n.reference_number = none ∧
      n.receipt_number = none) :
    activeUnique (rows ++ news) := by
  intro a ha b hb haa hba hab
  rcases List.mem_append.1 ha with ha | ha
  · rcases List.mem_append.1 hb with hb | hb
    · exact hinv a ha b hb haa hba hab
    · exact ⟨pairConflict_of_none (Or.inr (hnone b hb).1),
        receiptConflict_of_none (Or.inr (hnone b hb).2.2)⟩
  · exact ⟨pairConflict_of_none (Or.inl (hnone a ha).1),
      receiptConflict_of_none (Or.inl (hnone a ha).2.2)⟩

/-- A rewrite that only changes non-index columns (and may archive rows)
preserves the invariant. -/
theorem activeUnique_map {rows : List Clearance} {f : Clearance → Clearance}
    (hid : ∀ a, (f a).id = a.id)
    (hm : ∀ a, (f a).payment_method = a.payment_method)
    (hr : ∀ a, (f a).reference_number = a.reference_number)
    (hrc : ∀ a, (f a).receipt_number = a.receipt_number)
    (harch : ∀ a, (f a).archived = false → a.archived = false)
    (hinv : activeUnique rows) : activeUnique (rows.map f) := by
  intro a ha b hb haa hba hab
  obtain ⟨a0, ha0, rfl⟩ := List.mem_map.1 ha
  obtain ⟨b0, hb0, rfl⟩ := List.mem_map.1 hb
  have h1 := hinv a0 ha0 b0 hb0 (harch _ haa) (harch _ hba)
    (by rw [hid, hid] at hab; exact hab)
  constructor
  · rw [pairConflict_congr (hm a0) (hr a0)]
    calc pairConflict a0 (f b0) = pairConflict a0 b0 := by
          simp [pairConflict, hm, hr]
      _ = false := h1.1
  · rw [receiptConflict_congr (hrc a0)]
    calc receiptConflict a0 (f b0) = receiptConflict a0 b0 := by
          simp [receiptConflict, hrc]
      _ = false := h1.2


/-- On success, `update_receipt` rewrites one previously stored row of the
table, keeping its id, archived flag and receipt number, and has passed
the `(payment_method, reference_number)` index check. -/
theorem update_receipt_ok_shape {db : ClearDB} {uid : Nat} {p : UpdateReceiptPayload}
    {now : Nat} {d : ClearDB} {c : Clearance}
    (h : update_receipt db uid p now = .ok (d, c)) :
    ∃ r ∈ db.clearances, c.id = r.id ∧ c.archived = r.archived ∧
      c.receipt_number = r.receipt_number ∧
      d.clearances = setClearance db.clearances c ∧
      pairOKIn (setClearance db.clearances c) c = true ∧
      c.payment_status = "Verifying" := by
  unfold update_receipt at h
  split at h
  · exact absurd h (by simp)
  · split at h
    · exact absurd h (by simp)
    · rename_i membership hfind
      split at h
      · exact absurd h (by simp)
      · split at h
        · rename_i hOK
          injection h with h1
          injection h1 with hd hc
          subst hc
          exact ⟨membership, List.mem_of_find?_eq_some hfind, rfl, rfl, rfl,
            by rw [← hd], hOK, rfl⟩
        · exact absurd h (by simp)

/-- On success, `select_cash_payment` rewrites one stored row, keeping its
id, archived flag and receipt number, with a cleared reference number. -/
theorem select_cash_ok_shape {db : ClearDB} {uid mid now : Nat} {d : ClearDB}
    {c : Clearance}
    (h : select_cash_payment db uid mid now = .ok (d, c)) :
    ∃ r ∈ db.clearances, c.id = r.id ∧ c.archived = r.archived ∧
      c.receipt_number = r.receipt_number ∧ c.reference_number = none ∧
      d.clearances = setClearance db.clearances c ∧
      c = selectCashFields r now ∧ r.payment_status ≠ "Paid" := by
  unfold select_cash_payment at h
  split at h
  · exact absurd h (by simp)
  · rename_i membership hfind
    split at h
    · exact absurd h (by simp)
    · rename_i hnp
      split at h
      · injection h with h1
        injection h1 with hd hc
        subst hc
        exact ⟨membership, List.mem_of_find?_eq_some hfind, rfl, rfl, rfl, rfl,
          by rw [← hd], rfl, hnp⟩
      · exact absurd h (by simp)

/-- On success, either cash-confirmation endpoint rewrites one stored row,
keeping its id and archived flag, and has passed both index checks. -/
theorem cashConfirmCore_ok_shape {fields : Clearance → POfficer → Int → String → Nat → Clearance}
    {db : ClearDB} {off : POfficer} {p : CashPayload} {now : Nat} {d : ClearDB} {c : Clearance}
    (h : cashConfirmCore fields db off p now = .ok (d, c)) :
    ∃ r ∈ db.clearances, ∃ receipt_number,
      c = fields r off p.amount receipt_number now ∧
      d.clearances = setClearance db.clearances c ∧
      pairOKIn (setClearance db.clearances c) c = true ∧
      receiptOKIn (setClearance db.clearances c) c = true := by
  unfold cashConfirmCore at h
  split at h
  · exact absurd h (by simp)
  · rename_i vres receipt_number requirement hval
    split at h
    · exact absurd h (by simp)
    · split at h
      · exact absurd h (by simp)
      · rename_i membership hfind
        split at h
        · exact absurd h (by simp)
        · split at h
          · exact absurd h (by simp)
          · split at h
            · rename_i hOK
              injection h with h1
              injection h1 with hd hc
              subst hc
              rw [Bool.and_eq_true] at hOK
              exact ⟨membership, List.mem_of_find?_eq_some hfind, receipt_number,
                rfl, by rw [← hd], hOK.1, hOK.2⟩
            · exact absurd h (by simp)

/-- On success, `officer_verify_membership` rewrites one stored row with
either the approve fields or the deny fields. -/
theorem verify_ok_shape {db : ClearDB} {mid : Nat} {p : VerifyPayload} {now : Nat}
    {d : ClearDB} {c : Clearance}
    (h : officer_verify_membership db mid p now = .ok (d, c)) :
    ∃ r, db.clearances.find? (fun x => x.id = mid && !x.archived) = some r ∧
      d.clearances = setClearance db.clearances c ∧
      ((p.action = "approve" ∧ c = approveFields r p.officer_name now) ∨
       (p.action = "deny" ∧ c = denyFields r p.denial_reason)) := by
  unfold officer_verify_membership at h
  split at h
  · exact absurd h (by simp)
  · rename_i hact
    split at h
    · exact absurd h (by simp)
    · rename_i membership hfind
      split at h
      · rename_i happ
        injection h with h1
        injection h1 with hd hc
        subst hc
        exact ⟨membership, hfind, by rw [← hd], Or.inl ⟨happ, rfl⟩⟩
      · rename_i happ
        split at h
        · injection h with h1
          injection h1 with hd hc
          subst hc
          refine ⟨membership, hfind, by rw [← hd], Or.inr ⟨?_, rfl⟩⟩
          rcases not_not.1 hact with ha | ha
          · exact absurd ha happ
          · exact ha
        · exact absurd h (by simp)

/-- On success, `officer_create_membership` appends one fresh record that
carries no payment method, reference number or receipt number. -/
theorem create_membership_ok_shape {db : ClearDB} {uid : Nat} {a : Int}
    {ps req : String} {d : ClearDB} {c : Clearance}
    (h : officer_create_membership db uid a ps req = .ok (d, c)) :
    c = newMembershipRec db.nextId uid a ps req ∧
    d.clearances = db.clearances ++ [c] := by
  unfold officer_create_membership at h
  split at h
  · exact absurd h (by simp)
  · split at h
    · injection h with h1
      injection h1 with hd hc
      subst hc
      exact ⟨rfl, by rw [← hd]⟩
    · exact absurd h (by simp)

/-- `fanOut` only appends records, and every appended record is a fresh
requirement record: no payment method, reference or receipt number. -/
theorem fanOut_shape (req : String) (amt : Int) :
    ∀ (us : List PUser) (rows : List Clearance) (nid : Nat),
    ∃ news, (fanOut req amt us rows nid).1 = rows ++ news ∧
      ∀ n ∈ news, n.payment_method = none ∧ n.reference_number = none ∧
        n.receipt_number = none ∧ n.payment_status = "Not Paid" ∧ nid ≤ n.id := by
  intro us
  induction us with
  | nil => intro rows nid; exact ⟨[], by simp [fanOut], by simp⟩
  | cons u rest ih =>
    intro rows nid
    unfold fanOut
    split
    · exact ih rows nid
    · obtain ⟨news, hnews, hprop⟩ :=
        ih (rows ++ [freshRequirementRec nid u.id req amt]) (nid + 1)
      refine ⟨freshRequirementRec nid u.id req amt :: news, ?_, ?_⟩
      · simp only []
        rw [show (fanOut req amt rest (rows ++ [freshRequirementRec nid u.id req amt]) (nid + 1)).1 = rows ++ [freshRequirementRec nid u.id req amt] ++ news from hnews]
        simp
      · intro n hn
        rcases List.mem_cons.1 hn with rfl | hn
        · exact ⟨rfl, rfl, rfl, rfl, Nat.le_refl _⟩
        · obtain ⟨h1, h2, h3, h4, h5⟩ := hprop n hn
          exact ⟨h1, h2, h3, h4, Nat.le_of_succ_le h5⟩

/-- On success, `create_officer_requirement` appends only fresh records. -/
theorem create_requirement_ok_shape {db : ClearDB} {req : String} {a : Int}
    {d : ClearDB}
    (h : create_officer_requirement db req a = .ok d) :
    ∃ news, d.clearances = db.clearances ++ news ∧
      ∀ n ∈ news, n.payment_method = none ∧ n.reference_number = none ∧
        n.receipt_number = none ∧ n.payment_status = "Not Paid" ∧ db.nextId ≤ n.id := by
  unfold create_officer_requirement at h
  split at h
  · exact absurd h (by simp)
  · split at h
    · exact absurd h (by simp)
    · split at h
      · exact absurd h (by simp)
      · split at h
        · exact absurd h (by simp)
        · obtain ⟨news, hnews, hprop⟩ :=
            fanOut_shape (pyStrip req) a db.users db.clearances db.nextId
          injection h with hd
          exact ⟨news, by rw [← hd]; exact hnews, hprop⟩

/-- On success, `update_officer_requirement` only rewrites amounts. -/
theorem update_requirement_ok_shape {db : ClearDB} {req : String} {a : Option Int}
    {d : ClearDB}
    (h : update_officer_requirement db req a = .ok d) :
    ∃ f : Clearance → Clearance, d.clearances = db.clearances.map f ∧
      ∀ c, (f c).id = c.id ∧ (f c).payment_method = c.payment_method ∧
        (f c).reference_number = c.reference_number ∧
        (f c).receipt_number = c.receipt_number ∧ (f c).archived = c.archived ∧
        (f c).payment_status = c.payment_status := by
  unfold update_officer_requirement at h
  split at h
  · exact absurd h (by simp)
  · injection h with hd
    refine ⟨_, by rw [← hd], ?_⟩
    intro c
    constructor
    · split
      · split <;> rfl
      · rfl
    constructor
    · split
      · split <;> rfl
      · rfl
    constructor
    · split
      · split <;> rfl
      · rfl
    constructor
    · split
      · split <;> rfl
      · rfl
    constructor
    · split
      · split <;> rfl
      · rfl
    · split
      · split <;> rfl
      · rfl

/-- On success, `delete_officer_requirement` only sets archived flags. -/
theorem delete_requirement_ok_shape {db : ClearDB} {req : String} {d : ClearDB}
    (h : delete_officer_requirement db req = .ok d) :
    ∃ f : Clearance → Clearance, d.clearances = db.clearances.map f ∧
      ∀ c, (f c).id = c.id ∧ (f c).payment_method = c.payment_method ∧
        (f c).reference_number = c.reference_number ∧
        (f c).receipt_number = c.receipt_number ∧
        ((f c).archived = false → c.archived = false) ∧
        (f c).payment_status = c.payment_status := by
  unfold delete_officer_requirement at h
  split at h
  · exact absurd h (by simp)
  · injection h with hd
    refine ⟨_, by rw [← hd], ?_⟩
    intro c
    constructor
    · split <;> rfl
    constructor
    · split <;> rfl
    constructor
    · split <;> rfl
    constructor
    · split <;> rfl
    constructor
    · split
      · intro hh; exact absurd hh (by simp)
      · exact fun hh => hh
    · split <;> rfl

theorem pairOKIn_of_none {rows : List Clearance} {c : Clearance}
    (h : c.payment_method = none ∨ c.reference_number = none) :
    pairOKIn rows c = true := by
  apply List.all_eq_true.2
  intro b hb
  have : pairConflict c b = false := by
    rcases h with h | h
    · simp [pairConflict, h]
    · simp [pairConflict, h]
  simp [this]

/-- Every clearance-mutating request preserves the active-row uniqueness
invariant: the successful paths either passed the relevant unique-index
re-check at commit or did not change the indexed columns of any row. -/
theorem stepOp_preserves (op : COp) (now : Nat) (db : ClearDB)
    (hinv : activeUnique db.clearances) :
    activeUnique (stepOp op now db).clearances := by
  cases op with
  | submitReceipt uid p =>
    simp only [stepOp]
    split
    · rename_i d c h
      obtain ⟨r, hr, hid, harc, hrec, hd, hOK, hst⟩ := update_receipt_ok_shape h
      rw [hd]
      exact activeUnique_set hinv hr hid harc (Or.inl hOK) (Or.inr hrec)
    · exact hinv
  | selectCash uid mid =>
    simp only [stepOp]
    split
    · rename_i d c h
      obtain ⟨r, hr, hid, harc, hrec, hrefnone, hd, hcf, hnp⟩ := select_cash_ok_shape h
      rw [hd]
      exact activeUnique_set hinv hr hid harc
        (Or.inl (pairOKIn_of_none (Or.inr hrefnone))) (Or.inr hrec)
    · exact hinv
  | cashPayment off p =>
    simp only [stepOp]
    split
    · rename_i d c h
      have hcore : cashConfirmCore cashFieldsNaive db off p now = .ok (d, c) := h
      obtain ⟨r, hr, receipt, hc, hd, hpair, hrec⟩ := cashConfirmCore_ok_shape hcore
      rw [hd]
      exact activeUnique_set hinv hr (by rw [hc]; rfl) (by rw [hc]; rfl)
        (Or.inl hpair) (Or.inl hrec)
    · exact hinv
  | confirmCash off p =>
    simp only [stepOp]
    split
    · rename_i d c h
      have hcore : cashConfirmCore cashFieldsAware db off p now = .ok (d, c) := h
      obtain ⟨r, hr, receipt, hc, hd, hpair, hrec⟩ := cashConfirmCore_ok_shape hcore
      rw [hd]
      exact activeUnique_set hinv hr (by rw [hc]; rfl) (by rw [hc]; rfl)
        (Or.inl hpair) (Or.inl hrec)
    · exact hinv
  | verifyOp mid p =>
    simp only [stepOp]
    split
    · rename_i d c h
      obtain ⟨r, hfind, hd, hbranch⟩ := verify_ok_shape h
      have hr := List.mem_of_find?_eq_some hfind
      rw [hd]
      rcases hbranch with ⟨_, hc⟩ | ⟨_, hc⟩
      · exact activeUnique_set hinv hr (by rw [hc]; rfl) (by rw [hc]; rfl)
          (Or.inr (by rw [hc]; exact ⟨rfl, rfl⟩)) (Or.inr (by rw [hc]; rfl))
      · exact activeUnique_set hinv hr (by rw [hc]; rfl) (by rw [hc]; rfl)
          (Or.inl (pairOKIn_of_none (Or.inl (by rw [hc]; rfl))))
          (Or.inr (by rw [hc]; rfl))
    · exact hinv
  | createMembership uid a ps req =>
    simp only [stepOp]
    split
    · rename_i d c h
      obtain ⟨hc, hd⟩ := create_membership_ok_shape h
      rw [hd]
      refine activeUnique_append_none hinv ?_
      intro n hn
      rcases List.mem_singleton.1 hn with rfl
      rw [hc]
      exact ⟨rfl, rfl, rfl⟩
    · exact hinv
  | createRequirement req a =>
    simp only [stepOp]
    split
    · rename_i d h
      obtain ⟨news, hd, hprop⟩ := create_requirement_ok_shape h
      rw [hd]
      exact activeUnique_append_none hinv
        (fun n hn => ⟨(hprop n hn).1, (hprop n hn).2.1, (hprop n hn).2.2.1⟩)
    · exact hinv
  | updateRequirement req a =>
    simp only [stepOp]
    split
    · rename_i d h
      obtain ⟨f, hd, hprop⟩ := update_requirement_ok_shape h
      rw [hd]
      exact activeUnique_map (fun x => (hprop x).1) (fun x => (hprop x).2.1)
        (fun x => (hprop x).2.2.1) (fun x => (hprop x).2.2.2.1)
        (fun x hx => by rw [← (hprop x).2.2.2.2.1]; exact hx) hinv
    · exact hinv
  | archiveRequirement req =>
    simp only [stepOp]
    split
    · rename_i d h
      obtain ⟨f, hd, hprop⟩ := delete_requirement_ok_shape h
      rw [hd]
      exact activeUnique_map (fun x => (hprop x).1) (fun x => (hprop x).2.1)
        (fun x => (hprop x).2.2.1) (fun x => (hprop x).2.2.2.1)
        (fun x => (hprop x).2.2.2.2.1) hinv
    · exact hinv

/-- C1: For every set of active (non-archived) `Clearance` rows produced
by the clearance operations, the pair `(payment_method, reference_number)`
is unique across rows whenever both fields are non-null, and
`receipt_number` is unique across rows whenever it is non-null: starting
from any database satisfying the invariant, any sequence of clearance
requests preserves it. -/
theorem C1_clearance_uniqueness (ops : List (COp × Nat)) (db : ClearDB)
    (hinv : activeUnique db.clearances) :
    activeUnique (runOps ops db).clearances := by
  induction ops generalizing db with
  | nil => exact hinv
  | cons oc rest ih =>
    simp only [runOps, List.foldl_cons] at *
    exact ih (stepOp oc.1 oc.2 db) (stepOp_preserves oc.1 oc.2 db hinv)

theorem C1_clearance_uniqueness_witness :
    activeUnique (ClearDB.clearances ⟨[⟨1, "Juan"⟩], [], 1⟩) ∧
    activeUnique (runOps
      [(COp.createRequirement "1st Semester Membership" 50, 0),
       (COp.cashPayment ⟨7, "Jane"⟩ ⟨1, "1st Semester Membership", 50, "R1"⟩, 3)]
      ⟨[⟨1, "Juan"⟩], [], 1⟩).clearances :=
  ⟨fun a ha => absurd ha (by simp), C1_clearance_uniqueness _ _ (fun a ha => absurd ha (by simp))⟩

/-- In a table with distinct primary keys, rows are determined by id. -/
theorem eq_of_id_nodup {rows : List Clearance}
    (h : (rows.map (fun c => c.id)).Nodup) {a b : Clearance}
    (ha : a ∈ rows) (hb : b ∈ rows) (hid : a.id = b.id) : a = b :=
  List.inj_on_of_nodup_map h ha hb hid

/-- The operations through which a record can newly acquire
`payment_status = "Paid"`: the two cash-confirmation endpoints, the
officer approve action, and officer record creation with the form field
`payment_status` set to `"Paid"`. -/
def entersPaid : COp → Prop
  | .cashPayment _ _ => True
  | .confirmCash _ _ => True
  | .verifyOp _ p => p.action = "approve"
  | .createMembership _ _ ps _ => ps = "Paid"
  | _ => False

/-- The operations through which a `"Paid"` record can lose that status:
the officer deny action and a user digital-receipt resubmission
(`update_receipt` has no already-paid guard). -/
def exitsPaid : COp → Prop
  | .verifyOp _ p => p.action = "deny"
  | .submitReceipt _ _ => True
  | _ => False

theorem noExitSame {rows : List Clearance}
    (hids : (rows.map (fun c => c.id)).Nodup) :
    ∀ a ∈ rows, a.payment_status = "Paid" →
      ∀ c' ∈ rows, c'.id = a.id → c'.payment_status ≠ "Paid" → False := by
  intro a ha hap c' hc' hid hnp
  have : c' = a := eq_of_id_nodup hids hc' ha hid
  rw [this] at hnp
  exact hnp hap

/-- C3 counterexample: the claim says `payment_status = "Paid"` is reached
only through officer approval of a receipt or officer cash confirmation,
and is terminal.  But (a) `officer_create_membership` stores the form's
`payment_status` verbatim, so an officer creation request materializes a
`"Paid"` record without any approval operation, and (b) the officer deny
action and (c) a user digital-receipt resubmission both move an
already-`"Paid"` record out of `"Paid"` (neither has an already-paid
guard). -/
theorem C3_counterexample :
    (stepOp (COp.createMembership 1 100 "Paid" "1st Semester Membership") 0
        ⟨[⟨1, "Juan"⟩], [], 1⟩).clearances =
      [newMembershipRec 1 1 100 "Paid" "1st Semester Membership"] ∧
    (newMembershipRec 1 1 100 "Paid" "1st Semester Membership").payment_status = "Paid" ∧
    ((stepOp (COp.verifyOp 1 ⟨"deny", some "reversed", none⟩) 5
        ⟨[⟨1, "Juan"⟩], [newMembershipRec 1 1 100 "Paid" "1st Semester Membership"], 2⟩).clearances.map
      (fun c => c.payment_status)) = ["Not Paid"] ∧
    ((stepOp (COp.submitReceipt 1 ⟨1, "gcash", "http://r", some "ABCD12345WXYZ"⟩) 6
        ⟨[⟨1, "Juan"⟩], [newMembershipRec 1 1 100 "Paid" "1st Semester Membership"], 2⟩).clearances.map
      (fun c => c.payment_status)) = ["Verifying"] := by
  refine ⟨?_, rfl, ?_, ?_⟩ <;> decide

/-- C3 (amended): in a database with distinct, sequence-fresh primary
keys, a record newly acquires `payment_status = "Paid"` only through the
two officer cash-confirmation endpoints, the officer approve action, or
officer record creation with `payment_status` supplied as `"Paid"`; and a
`"Paid"` record loses that status only through the officer deny action or
a user digital-receipt resubmission — never as a side effect of the other
operations. -/
theorem C3_paid_transitions (op : COp) (now : Nat) (db : ClearDB)
    (hids : (db.clearances.map (fun c => c.id)).Nodup)
    (hfresh : ∀ c ∈ db.clearances, c.id < db.nextId) :
    (∀ c' ∈ (stepOp op now db).clearances, c'.payment_status = "Paid" →
      (∃ c ∈ db.clearances, c.id = c'.id ∧ c.payment_status = "Paid") ∨ entersPaid op) ∧
    (∀ a ∈ db.clearances, a.payment_status = "Paid" →
      ∀ c' ∈ (stepOp op now db).clearances, c'.id = a.id →
        c'.payment_status ≠ "Paid" → exitsPaid op) := by
  cases op with
  | submitReceipt uid p =>
    refine ⟨?_, fun _ _ _ _ _ _ _ => trivial⟩
    simp only [stepOp]
    split
    · rename_i d c h
      obtain ⟨r, hr, hid, harc, hrec, hd, hOK, hst⟩ := update_receipt_ok_shape h
      rw [hd]
      intro c' hc' hp
      rcases mem_setClearance hc' with rfl | ⟨hcr, _⟩
      · rw [hst] at hp
        exact absurd hp (by decide)
      · exact Or.inl ⟨c', hcr, rfl, hp⟩
    · intro c' hc' hp
      exact Or.inl ⟨c', hc', rfl, hp⟩
  | selectCash uid mid =>
    simp only [stepOp]
    split
    · rename_i d c h
      obtain ⟨r, hr, hid, harc, hrec, hrefnone, hd, hcf, hnp⟩ := select_cash_ok_shape h
      rw [hd]
      constructor
      · intro c' hc' hp
        rcases mem_setClearance hc' with rfl | ⟨hcr, _⟩
        · rw [hcf] at hp
          simp [selectCashFields] at hp
        · exact Or.inl ⟨c', hcr, rfl, hp⟩
      · intro a ha hap c' hc' hideq hnotp
        rcases mem_setClearance hc' with rfl | ⟨hcr, _⟩
        · exfalso
          apply hnp
          have hra : r = a := by
            apply eq_of_id_nodup hids hr ha
            rw [← hid]
            exact hideq
          rw [hra, hap]
        · exact (noExitSame hids a ha hap c' hcr hideq hnotp).elim
    · refine ⟨fun c' hc' hp => Or.inl ⟨c', hc', rfl, hp⟩, ?_⟩
      intro a ha hap c' hc' hideq hnotp
      exact (noExitSame hids a ha hap c' hc' hideq hnotp).elim
  | cashPayment off p =>
    simp only [stepOp]
    split
    · rename_i d c h
      have hcore : cashConfirmCore cashFieldsNaive db off p now = .ok (d, c) := h
      obtain ⟨r, hr, receipt, hc, hd, hpair, hrecok⟩ := cashConfirmCore_ok_shape hcore
      rw [hd]
      refine ⟨fun _ _ _ => Or.inr trivial, ?_⟩
      intro a ha hap c' hc' hideq hnotp
      rcases mem_setClearance hc' with rfl | ⟨hcr, _⟩
      · exact hnotp (by rw [hc]; rfl)
      · exact (noExitSame hids a ha hap c' hcr hideq hnotp).elim
    · refine ⟨fun _ _ _ => Or.inr trivial, ?_⟩
      intro a ha hap c' hc' hideq hnotp
      exact (noExitSame hids a ha hap c' hc' hideq hnotp).elim
  | confirmCash off p =>
    simp only [stepOp]
    split
    · rename_i d c h
      have hcore : cashConfirmCore cashFieldsAware db off p now = .ok (d, c) := h
      obtain ⟨r, hr, receipt, hc, hd, hpair, hrecok⟩ := cashConfirmCore_ok_shape hcore
      rw [hd]
      refine ⟨fun _ _ _ => Or.inr trivial, ?_⟩
      intro a ha hap c' hc' hideq hnotp
      rcases mem_setClearance hc' with rfl | ⟨hcr, _⟩
      · exact hnotp (by rw [hc]; rfl)
      · exact (noExitSame hids a ha hap c' hcr hideq hnotp).elim
    · refine ⟨fun _ _ _ => Or.inr trivial, ?_⟩
      intro a ha hap c' hc' hideq hnotp
      exact (noExitSame hids a ha hap c' hc' hideq hnotp).elim
  | verifyOp mid p =>
    simp only [stepOp]
    split
    · rename_i d c h
      obtain ⟨r, hfind, hd, hbranch⟩ := verify_ok_shape h
      have hr := List.mem_of_find?_eq_some hfind
      rw [hd]
      rcases hbranch with ⟨happ, hc⟩ | ⟨hden, hc⟩
      · refine ⟨fun _ _ _ => Or.inr happ, ?_⟩
        intro a ha hap c' hc' hideq hnotp
        rcases mem_setClearance hc' with rfl | ⟨hcr, _⟩
        · exact absurd (by rw [hc]; rfl) hnotp
        · exact (noExitSame hids a ha hap c' hcr hideq hnotp).elim
      · constructor
        · intro c' hc' hp
          rcases mem_setClearance hc' with rfl | ⟨hcr, _⟩
          · rw [hc] at hp
            simp [denyFields] at hp
          · exact Or.inl ⟨c', hcr, rfl, hp⟩
        · intro a ha hap c' hc' hideq hnotp
          exact hden
    · refine ⟨fun c' hc' hp => Or.inl ⟨c', hc', rfl, hp⟩, ?_⟩
      intro a ha hap c' hc' hideq hnotp
      exact (noExitSame hids a ha hap c' hc' hideq hnotp).elim
  | createMembership uid amt ps req =>
    simp only [stepOp]
    split
    · rename_i d c h
      obtain ⟨hc, hd⟩ := create_membership_ok_shape h
      rw [hd]
      constructor
      · intro c' hc' hp
        rcases List.mem_append.1 hc' with hcr | hnew
        · exact Or.inl ⟨c', hcr, rfl, hp⟩
        · rcases List.mem_singleton.1 hnew with rfl
          rw [hc] at hp
          simp only [newMembershipRec] at hp
          exact Or.inr hp
      · intro a ha hap c' hc' hideq hnotp
        rcases List.mem_append.1 hc' with hcr | hnew
        · exact (noExitSame hids a ha hap c' hcr hideq hnotp).elim
        · rcases List.mem_singleton.1 hnew with rfl
          exfalso
          rw [hc] at hideq
          simp only [newMembershipRec] at hideq
          exact absurd hideq.symm (Nat.ne_of_lt (hfresh a ha))
    · refine ⟨fun c' hc' hp => Or.inl ⟨c', hc', rfl, hp⟩, ?_⟩
      intro a ha hap c' hc' hideq hnotp
      exact (noExitSame hids a ha hap c' hc' hideq hnotp).elim
  | createRequirement req amt =>
    simp only [stepOp]
    split
    · rename_i d h
      obtain ⟨news, hd, hprop⟩ := create_requirement_ok_shape h
      rw [hd]
      constructor
      · intro c' hc' hp
        rcases List.mem_append.1 hc' with hcr | hnew
        · exact Or.inl ⟨c', hcr, rfl, hp⟩
        · rw [(hprop c' hnew).2.2.2.1] at hp
          exact absurd hp (by decide)
      · intro a ha hap c' hc' hideq hnotp
        rcases List.mem_append.1 hc' with hcr | hnew
        · exact (noExitSame hids a ha hap c' hcr hideq hnotp).elim
        · exfalso
          have h1 := (hprop c' hnew).2.2.2.2
          have h2 := hfresh a ha
          rw [hideq] at h1
          exact absurd rfl (Nat.ne_of_lt (Nat.lt_of_lt_of_le h2 h1))
    · refine ⟨fun c' hc' hp => Or.inl ⟨c', hc', rfl, hp⟩, ?_⟩
      intro a ha hap c' hc' hideq hnotp
      exact (noExitSame hids a ha hap c' hc' hideq hnotp).elim
  | updateRequirement req amt =>
    simp only [stepOp]
    split
    · rename_i d h
      obtain ⟨f, hd, hprop⟩ := update_requirement_ok_shape h
      rw [hd]
      constructor
      · intro c' hc' hp
        obtain ⟨y, hy, rfl⟩ := List.mem_map.1 hc'
        refine Or.inl ⟨y, hy, ((hprop y).1).symm, ?_⟩
        rw [← (hprop y).2.2.2.2.2]
        exact hp
      · intro a ha hap c' hc' hideq hnotp
        obtain ⟨y, hy, rfl⟩ := List.mem_map.1 hc'
        have hyid : y.id = a.id := by rw [← (hprop y).1]; exact hideq
        have hya : y = a := eq_of_id_nodup hids hy ha hyid
        exfalso
        apply hnotp
        rw [(hprop y).2.2.2.2.2, hya]
        exact hap
    · refine ⟨fun c' hc' hp => Or.inl ⟨c', hc', rfl, hp⟩, ?_⟩
      intro a ha hap c' hc' hideq hnotp
      exact (noExitSame hids a ha hap c' hc' hideq hnotp).elim
  | archiveRequirement req =>
    simp only [stepOp]
    split
    · rename_i d h
      obtain ⟨f, hd, hprop⟩ := delete_requirement_ok_shape h
      rw [hd]
      constructor
      · intro c' hc' hp
        obtain ⟨y, hy, rfl⟩ := List.mem_map.1 hc'
        refine Or.inl ⟨y, hy, ((hprop y).1).symm, ?_⟩
        rw [← (hprop y).2.2.2.2.2]
        exact hp
      · intro a ha hap c' hc' hideq hnotp
        obtain ⟨y, hy, rfl⟩ := List.mem_map.1 hc'
        have hyid : y.id = a.id := by rw [← (hprop y).1]; exact hideq
        have hya : y = a := eq_of_id_nodup hids hy ha hyid
        exfalso
        apply hnotp
        rw [(hprop y).2.2.2.2.2, hya]
        exact hap
    · refine ⟨fun c' hc' hp => Or.inl ⟨c', hc', rfl, hp⟩, ?_⟩
      intro a ha hap c' hc' hideq hnotp
      exact (noExitSame hids a ha hap c' hc' hideq hnotp).elim

theorem C3_paid_transitions_witness :
    ((ClearDB.clearances ⟨[⟨1, "Juan"⟩],
        [newMembershipRec 0 1 100 "Paid" "1st Semester Membership"], 1⟩).map
      (fun c => c.id)).Nodup ∧
    (∀ c' ∈ (stepOp (COp.verifyOp 0 ⟨"deny", none, none⟩) 4
        ⟨[⟨1, "Juan"⟩], [newMembershipRec 0 1 100 "Paid" "1st Semester Membership"], 1⟩).clearances,
      c'.payment_status = "Paid" →
      (∃ c ∈ (ClearDB.clearances ⟨[⟨1, "Juan"⟩],
          [newMembershipRec 0 1 100 "Paid" "1st Semester Membership"], 1⟩),
        c.id = c'.id ∧ c.payment_status = "Paid") ∨
      entersPaid (COp.verifyOp 0 ⟨"deny", none, none⟩)) := by
  constructor
  · decide
  · exact (C3_paid_transitions (COp.verifyOp 0 ⟨"deny", none, none⟩) 4
      ⟨[⟨1, "Juan"⟩], [newMembershipRec 0 1 100 "Paid" "1st Semester Membership"], 1⟩
      (by decide) (by decide)).1

/-- An archived row holding receipt number `"R1"` (for the C2 corner). -/
def c2arch : Clearance :=
  { id := 1, user_id := 2, requirement := "1st Semester Membership",
    status := "Clear", payment_status := "Paid", receipt_path := none,
    amount := some 100, archived := true, payment_method := some "cash",
    reference_number := none, receipt_number := some "R1",
    denial_reason := none, payment_date := none, approval_date := none,
    approved_by := none, verified_by := none, verified_at := none }

/-- An active, unpaid target row for user 1 (for the C2 corner). -/
def c2target : Clearance :=
  { id := 2, user_id := 1, requirement := "1st Semester Membership",
    status := "Not Yet Cleared", payment_status := "Not Paid",
    receipt_path := none, amount := some 100, archived := false,
    payment_method := none, reference_number := none, receipt_number := none,
    denial_reason := none, payment_date := none, approval_date := none,
    approved_by := none, verified_by := none, verified_at := none }

def c2db : ClearDB := ⟨[⟨1, "Juan"⟩, ⟨2, "Ana"⟩], [c2arch, c2target], 3⟩

/-- C2 counterexample: the claim promises that when the receipt number is
not used by any *active* record and the target passes the guards, the
confirmation succeeds and marks the record paid.  But the database unique
index `uq_clearances_receipt_number` spans archived rows too: with an
archived row already holding receipt `"R1"`, the commit raises
`IntegrityError` and the handler returns 500, leaving the record unpaid. -/
theorem C2_counterexample :
    (c2db.clearances.filter (fun c => !c.archived)).all
      (fun c => decide (c.receipt_number ≠ some "R1")) = true ∧
    c2target.payment_status = "Not Paid" ∧ c2target.payment_method = none ∧
    officer_cash_payment c2db ⟨7, "Jane"⟩ ⟨1, "1st Semester Membership", 100, "R1"⟩ 9 =
      .error ⟨500, "Failed to confirm cash payment"⟩ := by
  refine ⟨?_, rfl, rfl, ?_⟩ <;> decide

/-- C2 (amended): with a non-empty receipt number, a valid semester tag
and a positive amount, `officer_cash_payment` returns Conflict when the
receipt number is on an active record, NotFound when no active
`(user_id, requirement)` clearance exists, Conflict when that record is
already `"Paid"`, Conflict when its `payment_method` is neither null nor
`"cash"`, and otherwise — *provided committing violates no global unique
index (which also spans archived rows)* — sets `amount`,
`payment_method = "cash"`, `receipt_number`, `payment_status = "Paid"`,
`status = "Clear"`, `verified_by`, stamps `verified_at`, `payment_date`
and `approval_date` with the naive Manila time, sets `approved_by` to the
officer name and clears `denial_reason` (all of which are exactly the
fields of `cashFieldsNaive`). -/
theorem C2_cash_payment_behavior (db : ClearDB) (off : POfficer) (p : CashPayload)
    (now : Nat) (rnum req : String)
    (hval : cashValidate p = .ok (rnum, req)) :
    (∀ x, db.clearances.find? (fun c => c.receipt_number = some rnum && !c.archived) = some x →
      officer_cash_payment db off p now =
        .error ⟨409, "Receipt/reference number already used"⟩) ∧
    (db.clearances.find? (fun c => c.receipt_number = some rnum && !c.archived) = none →
      db.clearances.find? (fun c =>
        c.user_id = p.user_id && c.requirement = req && !c.archived) = none →
      officer_cash_payment db off p now =
        .error ⟨404, "Membership record not found for user/semester"⟩) ∧
    (∀ m, db.clearances.find? (fun c => c.receipt_number = some rnum && !c.archived) = none →
      db.clearances.find? (fun c =>
        c.user_id = p.user_id && c.requirement = req && !c.archived) = some m →
      (m.payment_status = "Paid" →
        officer_cash_payment db off p now = .error ⟨409, "Membership is already paid"⟩) ∧
      (m.payment_status ≠ "Paid" →
        ¬(m.payment_method = none ∨ m.payment_method = some "cash") →
        officer_cash_payment db off p now =
          .error ⟨409, "Membership is not marked as cash payment"⟩) ∧
      (m.payment_status ≠ "Paid" →
        (m.payment_method = none ∨ m.payment_method = some "cash") →
        pairOKIn (setClearance db.clearances (cashFieldsNaive m off p.amount rnum now))
          (cashFieldsNaive m off p.amount rnum now) = true →
        receiptOKIn (setClearance db.clearances (cashFieldsNaive m off p.amount rnum now))
          (cashFieldsNaive m off p.amount rnum now) = true →
        officer_cash_payment db off p now =
          .ok ({ db with clearances :=
                  setClearance db.clearances (cashFieldsNaive m off p.amount rnum now) },
               cashFieldsNaive m off p.amount rnum now))) := by
  refine ⟨?_, ?_, ?_⟩
  · intro x hx
    unfold officer_cash_payment cashConfirmCore
    rw [hval]
    dsimp only
    rw [hx]
  · intro h1 h2
    unfold officer_cash_payment cashConfirmCore
    rw [hval]
    dsimp only
    rw [h1, h2]
  · intro m h1 h2
    refine ⟨?_, ?_, ?_⟩
    · intro hp
      unfold officer_cash_payment cashConfirmCore
      rw [hval]
      dsimp only
      rw [h1, h2]
      simp [hp]
    · intro hp hm
      unfold officer_cash_payment cashConfirmCore
      rw [hval]
      dsimp only
      rw [h1, h2]
      simp only [if_neg hp, if_pos hm]
    · intro hp hm hpair hrec
      unfold officer_cash_payment cashConfirmCore
      rw [hval]
      dsimp only
      rw [h1, h2]
      simp only [if_neg hp, if_neg (not_not.2 hm)]
      rw [if_pos (by rw [hpair, hrec]; rfl)]

theorem C2_cash_payment_behavior_witness :
    cashValidate ⟨1, "1st Semester Membership", 100, "R9"⟩ =
      .ok ("R9", "1st Semester Membership") ∧
    officer_cash_payment ⟨[⟨1, "Juan"⟩], [c2target], 3⟩ ⟨7, "Jane"⟩
      ⟨1, "1st Semester Membership", 100, "R9"⟩ 9 =
      .ok ({ users := [⟨1, "Juan"⟩],
             clearances := setClearance [c2target]
               (cashFieldsNaive c2target ⟨7, "Jane"⟩ 100 "R9" 9),
             nextId := 3 },
           cashFieldsNaive c2target ⟨7, "Jane"⟩ 100 "R9" 9) :=
  ⟨by decide,
   ((C2_cash_payment_behavior ⟨[⟨1, "Juan"⟩], [c2target], 3⟩ ⟨7, "Jane"⟩
      ⟨1, "1st Semester Membership", 100, "R9"⟩ 9 "R9" "1st Semester Membership"
      (by decide)).2.2 c2target (by decide) (by decide)).2.2
      (by decide) (Or.inl rfl) (by decide) (by decide)⟩

theorem pairOKIn_set_congr {rows : List Clearance} {c c' : Clearance}
    (hid : c'.id = c.id) (hm : c'.payment_method = c.payment_method)
    (hr : c'.reference_number = c.reference_number) :
    pairOKIn (setClearance rows c') c' = pairOKIn (setClearance rows c) c := by
  unfold pairOKIn setClearance
  rw [List.all_map, List.all_map]
  induction rows with
  | nil => rfl
  | cons r rest ih =>
    simp only [List.all_cons, Function.comp]
    rw [ih]
    by_cases hrid : r.id = c.id
    · simp [hrid, hid]
    · simp only [hid, hrid, if_neg hrid]
      rw [pairConflict_congr hm hr]
      simp [hrid, hid]

theorem receiptOKIn_set_congr {rows : List Clearance} {c c' : Clearance}
    (hid : c'.id = c.id) (hr : c'.receipt_number = c.receipt_number) :
    receiptOKIn (setClearance rows c') c' = receiptOKIn (setClearance rows c) c := by
  unfold receiptOKIn setClearance
  rw [List.all_map, List.all_map]
  induction rows with
  | nil => rfl
  | cons r rest ih =>
    simp only [List.all_cons, Function.comp]
    rw [ih]
    by_cases hrid : r.id = c.id
    · simp [hrid, hid]
    · simp only [hid, hrid, if_neg hrid]
      rw [receiptConflict_congr hr]
      simp [hrid, hid]

def c9db : ClearDB := ⟨[⟨1, "Juan"⟩], [c2target], 3⟩

/-- C9 counterexample: on the same input and starting state, the endpoint
in cash_payments.py stamps `payment_date` and a *naive* `verified_at`,
while the copy in membership.py leaves `payment_date` untouched and
stores a timezone-*aware* `verified_at`, so the two endpoints are not
behaviorally equivalent as claimed. -/
theorem C9_counterexample :
    officer_cash_payment c9db ⟨7, "Jane"⟩ ⟨1, "1st Semester Membership", 100, "R9"⟩ 9 =
      .ok ({ users := [⟨1, "Juan"⟩],
             clearances := [cashFieldsNaive c2target ⟨7, "Jane"⟩ 100 "R9" 9],
             nextId := 3 }, cashFieldsNaive c2target ⟨7, "Jane"⟩ 100 "R9" 9) ∧
    officer_confirm_cash_payment c9db ⟨7, "Jane"⟩ ⟨1, "1st Semester Membership", 100, "R9"⟩ 9 =
      .ok ({ users := [⟨1, "Juan"⟩],
             clearances := [cashFieldsAware c2target ⟨7, "Jane"⟩ 100 "R9" 9],
             nextId := 3 }, cashFieldsAware c2target ⟨7, "Jane"⟩ 100 "R9" 9) ∧
    (cashFieldsNaive c2target ⟨7, "Jane"⟩ 100 "R9" 9).payment_date = some ⟨9, false⟩ ∧
    (cashFieldsAware c2target ⟨7, "Jane"⟩ 100 "R9" 9).payment_date = none ∧
    (cashFieldsNaive c2target ⟨7, "Jane"⟩ 100 "R9" 9).verified_at = some ⟨9, false⟩ ∧
    (cashFieldsAware c2target ⟨7, "Jane"⟩ 100 "R9" 9).verified_at = some ⟨9, true⟩ ∧
    cashFieldsNaive c2target ⟨7, "Jane"⟩ 100 "R9" 9 ≠
      cashFieldsAware c2target ⟨7, "Jane"⟩ 100 "R9" 9 := by
  refine ⟨?_, ?_, rfl, rfl, rfl, rfl, ?_⟩ <;> decide

/-- C9 (amended): the two officer cash-confirmation endpoints agree on
validation, guards, errors, and every updated field except the timestamp
columns: on every input and starting state they return the same error, or
both succeed with records that agree everywhere except that
`officer_cash_payment` stamps `verified_at`, `payment_date` and
`approval_date` with the naive Manila time while
`officer_confirm_cash_payment` stores aware `verified_at` and
`approval_date` and leaves `payment_date` at its previous value. -/
theorem C9_cash_endpoints_equiv (db : ClearDB) (off : POfficer) (p : CashPayload)
    (now : Nat) :
    (∀ e, officer_cash_payment db off p now = .error e ↔
          officer_confirm_cash_payment db off p now = .error e) ∧
    (∀ dA cA dB cB, officer_cash_payment db off p now = .ok (dA, cA) →
       officer_confirm_cash_payment db off p now = .ok (dB, cB) →
       cA = { cB with verified_at := some ⟨now, false⟩,
                      approval_date := some ⟨now, false⟩,
                      payment_date := some ⟨now, false⟩ } ∧
       cB.verified_at = some ⟨now, true⟩ ∧
       cB.approval_date = some ⟨now, true⟩ ∧
       (∃ m ∈ db.clearances, cB.payment_date = m.payment_date) ∧
       dA.clearances = setClearance db.clearances cA ∧
       dB.clearances = setClearance db.clearances cB) := by
  unfold officer_cash_payment officer_confirm_cash_payment cashConfirmCore
  cases hv : cashValidate p with
  | error e0 =>
    exact ⟨fun e => Iff.rfl, fun dA cA dB cB hA => absurd hA (by simp)⟩
  | ok pr =>
    obtain ⟨rnum, req⟩ := pr
    dsimp only
    cases hf1 : db.clearances.find? (fun c => c.receipt_number = some rnum && !c.archived) with
    | some x =>
      exact ⟨fun e => Iff.rfl, fun dA cA dB cB hA => absurd hA (by simp)⟩
    | none =>
      cases hf2 : db.clearances.find? (fun c =>
          c.user_id = p.user_id && c.requirement = req && !c.archived) with
      | none =>
        exact ⟨fun e => Iff.rfl, fun dA cA dB cB hA => absurd hA (by simp)⟩
      | some m =>
        dsimp only
        by_cases hp : m.payment_status = "Paid"
        · rw [if_pos hp, if_pos hp]
          exact ⟨fun e => Iff.rfl, fun dA cA dB cB hA => absurd hA (by simp)⟩
        · rw [if_neg hp, if_neg hp]
          by_cases hm : ¬(m.payment_method = none ∨ m.payment_method = some "cash")
          · rw [if_pos hm, if_pos hm]
            exact ⟨fun e => Iff.rfl, fun dA cA dB cB hA => absurd hA (by simp)⟩
          · rw [if_neg hm, if_neg hm]
            have hcond : (pairOKIn (setClearance db.clearances
                  (cashFieldsAware m off p.amount rnum now))
                  (cashFieldsAware m off p.amount rnum now) &&
                receiptOKIn (setClearance db.clearances
                  (cashFieldsAware m off p.amount rnum now))
                  (cashFieldsAware m off p.amount rnum now)) =
                (pairOKIn (setClearance db.clearances
                  (cashFieldsNaive m off p.amount rnum now))
                  (cashFieldsNaive m off p.amount rnum now) &&
                receiptOKIn (setClearance db.clearances
                  (cashFieldsNaive m off p.amount rnum now))
                  (cashFieldsNaive m off p.amount rnum now)) := by
              rw [@pairOKIn_set_congr db.clearances (cashFieldsNaive m off p.amount rnum now)
                    (cashFieldsAware m off p.amount rnum now) rfl rfl rfl,
                  @receiptOKIn_set_congr db.clearances (cashFieldsNaive m off p.amount rnum now)
                    (cashFieldsAware m off p.amount rnum now) rfl rfl]
            rw [hcond]
            by_cases hok : (pairOKIn (setClearance db.clearances
                  (cashFieldsNaive m off p.amount rnum now))
                  (cashFieldsNaive m off p.amount rnum now) &&
                receiptOKIn (setClearance db.clearances
                  (cashFieldsNaive m off p.amount rnum now))
                  (cashFieldsNaive m off p.amount rnum now)) = true
            · rw [if_pos hok, if_pos hok]
              constructor
              · intro e
                constructor <;> (intro h; exact absurd h (by simp))
              · intro dA cA dB cB hA hB
                injection hA with hA1
                injection hB with hB1
                injection hA1 with hdA hcA
                injection hB1 with hdB hcB
                subst hcA
                subst hcB
                refine ⟨rfl, rfl, rfl, ⟨m, List.mem_of_find?_eq_some hf2, rfl⟩, ?_, ?_⟩
                · rw [← hdA]
                · rw [← hdB]
            · rw [if_neg hok, if_neg hok]
              exact ⟨fun e => Iff.rfl, fun dA cA dB cB hA => absurd hA (by simp)⟩

theorem C9_cash_endpoints_equiv_witness :
    officer_cash_payment c9db ⟨7, "Jane"⟩ ⟨1, "1st Semester Membership", 100, "R9"⟩ 9 =
      .ok ({ users := [⟨1, "Juan"⟩],
             clearances := [cashFieldsNaive c2target ⟨7, "Jane"⟩ 100 "R9" 9],
             nextId := 3 }, cashFieldsNaive c2target ⟨7, "Jane"⟩ 100 "R9" 9) ∧
    cashFieldsNaive c2target ⟨7, "Jane"⟩ 100 "R9" 9 =
      { cashFieldsAware c2target ⟨7, "Jane"⟩ 100 "R9" 9 with
        verified_at := some ⟨9, false⟩,
        approval_date := some ⟨9, false⟩,
        payment_date := some ⟨9, false⟩ } :=
  ⟨by decide,
   ((C9_cash_endpoints_equiv c9db ⟨7, "Jane"⟩ ⟨1, "1st Semester Membership", 100, "R9"⟩ 9).2
     { users := [⟨1, "Juan"⟩],
       clearances := [cashFieldsNaive c2target ⟨7, "Jane"⟩ 100 "R9" 9], nextId := 3 }
     (cashFieldsNaive c2target ⟨7, "Jane"⟩ 100 "R9" 9)
     { users := [⟨1, "Juan"⟩],
       clearances := [cashFieldsAware c2target ⟨7, "Jane"⟩ 100 "R9" 9], nextId := 3 }
     (cashFieldsAware c2target ⟨7, "Jane"⟩ 100 "R9" 9)
     (by decide) (by decide)).1⟩

/-- C10: the deny action of the officer verify operation leaves
`reference_number`, `receipt_number`, `amount`, `approval_date`,
`approved_by`, `verified_by`, and `verified_at` unchanged; in particular
a denied record retains the reference number of the rejected submission
even though its `payment_method` is reset to null. -/
theorem C10_deny_frame (db : ClearDB) (mid : Nat) (p : VerifyPayload) (now : Nat)
    (d : ClearDB) (c : Clearance) (r : Clearance)
    (hact : p.action = "deny")
    (hfind : db.clearances.find? (fun x => x.id = mid && !x.archived) = some r)
    (h : officer_verify_membership db mid p now = .ok (d, c)) :
    c.reference_number = r.reference_number ∧ c.receipt_number = r.receipt_number ∧
    c.amount = r.amount ∧ c.approval_date = r.approval_date ∧
    c.approved_by = r.approved_by ∧ c.verified_by = r.verified_by ∧
    c.verified_at = r.verified_at ∧ c.payment_method = none := by
  obtain ⟨r2, hfind2, hd, hbr⟩ := verify_ok_shape h
  rw [hfind] at hfind2
  injection hfind2 with hr2
  subst hr2
  rcases hbr with ⟨ha, _⟩ | ⟨_, hc⟩
  · rw [hact] at ha
    exact absurd ha (by decide)
  · subst hc
    exact ⟨rfl, rfl, rfl, rfl, rfl, rfl, rfl, rfl⟩

/-- A denied record carrying leftovers of an approved cash payment, used
to witness the frame conditions of the deny action. -/
def c10rec : Clearance :=
  { id := 4, user_id := 1, requirement := "1st Semester Membership",
    status := "Clear", payment_status := "Paid", receipt_path := some "u",
    amount := some 120, archived := false, payment_method := some "gcash",
    reference_number := some "ABCD12345WXYZ", receipt_number := some "R5",
    denial_reason := none, payment_date := some ⟨2, false⟩,
    approval_date := some ⟨3, false⟩, approved_by := some "Jane",
    verified_by := some 7, verified_at := some ⟨3, false⟩ }

theorem C10_deny_frame_witness :
    officer_verify_membership ⟨[⟨1, "Juan"⟩], [c10rec], 5⟩ 4 ⟨"deny", some "wrong ref", none⟩ 8 =
      .ok (⟨[⟨1, "Juan"⟩], [denyFields c10rec (some "wrong ref")], 5⟩,
           denyFields c10rec (some "wrong ref")) ∧
    (denyFields c10rec (some "wrong ref")).reference_number = c10rec.reference_number ∧
    (denyFields c10rec (some "wrong ref")).payment_method = none :=
  ⟨by decide,
   (C10_deny_frame ⟨[⟨1, "Juan"⟩], [c10rec], 5⟩ 4 ⟨"deny", some "wrong ref", none⟩ 8
     ⟨[⟨1, "Juan"⟩], [denyFields c10rec (some "wrong ref")], 5⟩
     (denyFields c10rec (some "wrong ref")) c10rec rfl (by decide) (by decide)).1,
   (C10_deny_frame ⟨[⟨1, "Juan"⟩], [c10rec], 5⟩ 4 ⟨"deny", some "wrong ref", none⟩ 8
     ⟨[⟨1, "Juan"⟩], [denyFields c10rec (some "wrong ref")], 5⟩
     (denyFields c10rec (some "wrong ref")) c10rec rfl (by decide) (by decide)).2.2.2.2.2.2.2⟩

/-- A record exactly as the requirement fan-out would freshly create it,
sharing identity, requirement and amount with `r`. -/
def freshLike (r : Clearance) : Clearance :=
  { id := r.id, user_id := r.user_id, requirement := r.requirement,
    status := "Not Yet Cleared", payment_status := "Not Paid",
    receipt_path := none, amount := r.amount, archived := false,
    payment_method := none, reference_number := none, receipt_number := none,
    denial_reason := none, payment_date := none, approval_date := none,
    approved_by := none, verified_by := none, verified_at := none }

theorem pairOKIn_set_cons_self {x c : Clearance} {rest : List Clearance}
    (hx : x.id = c.id) :
    pairOKIn (setClearance (x :: rest) c) c = pairOKIn (setClearance rest c) c := by
  unfold pairOKIn setClearance
  simp [hx]

/-- C7: denying a `Verifying` clearance resets it to
`payment_status = "Not Paid"`, `status = "Not Yet Cleared"`, clears
`receipt_path`, `payment_method` and `payment_date`, records the denial
reason; and afterwards a digital resubmission on the denied record
behaves exactly as on a fresh record: same errors, and on success the
same record up to the untouched leftover columns (`denial_reason`,
`receipt_number` and the approval/verification metadata). -/
theorem C7_deny_reset_resubmit :
    (∀ (db : ClearDB) (mid : Nat) (p : VerifyPayload) (now : Nat) (d : ClearDB)
       (c r : Clearance), p.action = "deny" →
      db.clearances.find? (fun x => x.id = mid && !x.archived) = some r →
      r.payment_status = "Verifying" →
      officer_verify_membership db mid p now = .ok (d, c) →
      c.payment_status = "Not Paid" ∧ c.status = "Not Yet Cleared" ∧
      c.receipt_path = none ∧ c.payment_method = none ∧ c.payment_date = none ∧
      c.denial_reason = p.denial_reason ∧
      d.clearances = setClearance db.clearances c) ∧
    (∀ (r : Clearance) (reason : Option String) (rest : List Clearance)
       (users : List PUser) (nid : Nat) (p : UpdateReceiptPayload) (now : Nat),
      r.archived = false → p.membership_id = r.id →
      (∀ e, update_receipt ⟨users, denyFields r reason :: rest, nid⟩ r.user_id p now = .error e ↔
            update_receipt ⟨users, freshLike r :: rest, nid⟩ r.user_id p now = .error e) ∧
      (∀ dd cd df cf,
        update_receipt ⟨users, denyFields r reason :: rest, nid⟩ r.user_id p now = .ok (dd, cd) →
        update_receipt ⟨users, freshLike r :: rest, nid⟩ r.user_id p now = .ok (df, cf) →
        cd = { cf with denial_reason := reason, receipt_number := r.receipt_number, approval_date := r.approval_date, approved_by := r.approved_by, verified_by := r.verified_by, verified_at := r.verified_at })) := by
  constructor
  · intro db mid p now d c r hact hfind hver h
    obtain ⟨r2, hfind2, hd, hbr⟩ := verify_ok_shape h
    rw [hfind] at hfind2
    injection hfind2 with hr2
    subst hr2
    rcases hbr with ⟨ha, _⟩ | ⟨_, hc⟩
    · rw [hact] at ha
      exact absurd ha (by decide)
    · subst hc
      exact ⟨rfl, rfl, rfl, rfl, rfl, rfl, hd⟩
  · intro r reason rest users nid p now harch hmid
    cases hv : updateReceiptValidate p with
    | error e0 =>
      unfold update_receipt
      rw [hv]
      exact ⟨fun e => Iff.rfl, fun dd cd df cf hAA => absurd hAA (by simp)⟩
    | ok pr =>
      obtain ⟨pt, ref⟩ := pr
      unfold update_receipt
      rw [hv]
      dsimp only
      have hfd : List.find? (fun c =>
          decide (c.id = p.membership_id) && decide (c.user_id = r.user_id) && !c.archived)
          (denyFields r reason :: rest) = some (denyFields r reason) := by
        rw [List.find?_cons_of_pos]
        simp [denyFields, hmid, harch]
      have hff : List.find? (fun c =>
          decide (c.id = p.membership_id) && decide (c.user_id = r.user_id) && !c.archived)
          (freshLike r :: rest) = some (freshLike r) := by
        rw [List.find?_cons_of_pos]
        simp [freshLike, hmid]
      rw [hfd, hff]
      dsimp only
      have hqd : List.find? (fun c =>
          !c.archived && decide (c.payment_method = some pt) &&
          decide (c.reference_number = some ref) &&
          decide (c.id ≠ (denyFields r reason).id)) (denyFields r reason :: rest) =
        List.find? (fun c =>
          !c.archived && decide (c.payment_method = some pt) &&
          decide (c.reference_number = some ref) &&
          decide (c.id ≠ (denyFields r reason).id)) rest := by
        rw [List.find?_cons_of_neg]
        simp [denyFields]
      have hqf : List.find? (fun c =>
          !c.archived && decide (c.payment_method = some pt) &&
          decide (c.reference_number = some ref) &&
          decide (c.id ≠ (freshLike r).id)) (freshLike r :: rest) =
        List.find? (fun c =>
          !c.archived && decide (c.payment_method = some pt) &&
          decide (c.reference_number = some ref) &&
          decide (c.id ≠ (freshLike r).id)) rest := by
        rw [List.find?_cons_of_neg]
        simp [freshLike]
      rw [hqd, hqf]
      have hsameid : (denyFields r reason).id = (freshLike r).id := rfl
      rw [hsameid]
      cases hq : (if pt = "gcash" ∨ pt = "paymaya" then
          List.find? (fun c =>
            !c.archived && decide (c.payment_method = some pt) &&
            decide (c.reference_number = some ref) &&
            decide (c.id ≠ (freshLike r).id)) rest
        else none) with
      | some x =>
        exact ⟨fun e => Iff.rfl, fun dd cd df cf hAA => absurd hAA (by simp)⟩
      | none =>
        dsimp only
        have hcc : pairOKIn
            (setClearance (denyFields r reason :: rest)
              (submitFields (denyFields r reason) p.receipt_path pt ref now))
            (submitFields (denyFields r reason) p.receipt_path pt ref now) =
          pairOKIn
            (setClearance (freshLike r :: rest)
              (submitFields (freshLike r) p.receipt_path pt ref now))
            (submitFields (freshLike r) p.receipt_path pt ref now) := by
          rw [@pairOKIn_set_cons_self (denyFields r reason)
                (submitFields (denyFields r reason) p.receipt_path pt ref now) rest rfl,
              @pairOKIn_set_cons_self (freshLike r)
                (submitFields (freshLike r) p.receipt_path pt ref now) rest rfl,
              @pairOKIn_set_congr rest (submitFields (freshLike r) p.receipt_path pt ref now)
                (submitFields (denyFields r reason) p.receipt_path pt ref now) rfl rfl rfl]
        rw [hcc]
        by_cases hok : pairOKIn
            (setClearance (freshLike r :: rest)
              (submitFields (freshLike r) p.receipt_path pt ref now))
            (submitFields (freshLike r) p.receipt_path pt ref now) = true
        · rw [if_pos hok, if_pos hok]
          constructor
          · intro e
            constructor <;> (intro hAA; exact absurd hAA (by simp))
          · intro dd cd df cf hA hB
            injection hA with hA1
            injection hB with hB1
            injection hA1 with hdd hcd
            injection hB1 with hdf hcf
            subst hcd
            subst hcf
            cases r
            subst harch
            rfl
        · rw [if_neg hok, if_neg hok]
          exact ⟨fun e => Iff.rfl, fun dd cd df cf hAA => absurd hAA (by simp)⟩

/-- A membership in the `Verifying` state awaiting officer review. -/
def c7rec : Clearance :=
  { id := 4, user_id := 1, requirement := "1st Semester Membership",
    status := "Processing", payment_status := "Verifying",
    receipt_path := some "u", amount := some 120, archived := false,
    payment_method := some "gcash", reference_number := some "ABCD12345WXYZ",
    receipt_number := none, denial_reason := none, payment_date := some ⟨2, false⟩,
    approval_date := none, approved_by := none, verified_by := none,
    verified_at := none }

theorem C7_deny_reset_resubmit_witness :
    officer_verify_membership ⟨[⟨1, "Juan"⟩], [c7rec], 5⟩ 4 ⟨"deny", some "blurry", none⟩ 8 =
      .ok (⟨[⟨1, "Juan"⟩], [denyFields c7rec (some "blurry")], 5⟩,
           denyFields c7rec (some "blurry")) ∧
    ((denyFields c7rec (some "blurry")).payment_status = "Not Paid" ∧
     (denyFields c7rec (some "blurry")).status = "Not Yet Cleared" ∧
     (denyFields c7rec (some "blurry")).receipt_path = none ∧
     (denyFields c7rec (some "blurry")).payment_method = none ∧
     (denyFields c7rec (some "blurry")).payment_date = none) ∧
    update_receipt ⟨[⟨1, "Juan"⟩], [denyFields c7rec (some "blurry")], 5⟩ 1
        ⟨4, "paymaya", "http://r2", some "1234 5678 9012 3456"⟩ 9 =
      .ok (⟨[⟨1, "Juan"⟩],
            [submitFields (denyFields c7rec (some "blurry")) "http://r2" "paymaya" "1234567890123456" 9], 5⟩,
           submitFields (denyFields c7rec (some "blurry")) "http://r2" "paymaya" "1234567890123456" 9) ∧
    submitFields (denyFields c7rec (some "blurry")) "http://r2" "paymaya" "1234567890123456" 9 =
      { submitFields (freshLike c7rec) "http://r2" "paymaya" "1234567890123456" 9 with
        denial_reason := some "blurry", receipt_number := c7rec.receipt_number, approval_date := c7rec.approval_date, approved_by := c7rec.approved_by, verified_by := c7rec.verified_by, verified_at := c7rec.verified_at } := by
  refine ⟨by decide, ?_, by decide, ?_⟩
  · have T := C7_deny_reset_resubmit.1 ⟨[⟨1, "Juan"⟩], [c7rec], 5⟩ 4
      ⟨"deny", some "blurry", none⟩ 8
      ⟨[⟨1, "Juan"⟩], [denyFields c7rec (some "blurry")], 5⟩
      (denyFields c7rec (some "blurry")) c7rec rfl (by decide) rfl (by decide)
    exact ⟨T.1, T.2.1, T.2.2.1, T.2.2.2.1, T.2.2.2.2.1⟩
  · exact (C7_deny_reset_resubmit.2 c7rec (some "blurry") [] [⟨1, "Juan"⟩] 5
      ⟨4, "paymaya", "http://r2", some "1234 5678 9012 3456"⟩ 9 rfl rfl).2
      ⟨[⟨1, "Juan"⟩],
        [submitFields (denyFields c7rec (some "blurry")) "http://r2" "paymaya" "1234567890123456" 9], 5⟩
      (submitFields (denyFields c7rec (some "blurry")) "http://r2" "paymaya" "1234567890123456" 9)
      ⟨[⟨1, "Juan"⟩],
        [submitFields (freshLike c7rec) "http://r2" "paymaya" "1234567890123456" 9], 5⟩
      (submitFields (freshLike c7rec) "http://r2" "paymaya" "1234567890123456" 9)
      (by decide) (by decide)

/-- What a successful `update_receipt` validation guarantees: the type is
digital, the reference was present, format-checked and uppercased. -/
theorem updateReceiptValidate_ok {p : UpdateReceiptPayload} {a b : String}
    (h : updateReceiptValidate p = .ok (a, b)) :
    a = pyStrip (pyLower p.payment_type) ∧ (a = "gcash" ∨ a = "paymaya") ∧
    b = pyUpper (cleanRefFn (pyStrip (p.reference_number.getD ""))) ∧
    pyStrip (p.reference_number.getD "") ≠ "" ∧
    (a = "gcash" →
      (cleanRefFn (pyStrip (p.reference_number.getD ""))).length = 13 ∧
      pyIsAlnum (cleanRefFn (pyStrip (p.reference_number.getD ""))) = true) ∧
    (a = "paymaya" →
      (cleanRefFn (pyStrip (p.reference_number.getD ""))).length = 16 ∧
      pyIsDigit (cleanRefFn (pyStrip (p.reference_number.getD ""))) = true) := by
  unfold updateReceiptValidate at h
  split at h
  · exact absurd h (by simp)
  · rename_i hvalid
    split at h
    · exact absurd h (by simp)
    · rename_i hnc
      split at h
      · rename_i hdig
        split at h
        · exact absurd h (by simp)
        · rename_i hne
          split at h
          · exact absurd h (by simp)
          · rename_i hn13
            split at h
            · exact absurd h (by simp)
            · rename_i hnal
              split at h
              · exact absurd h (by simp)
              · rename_i hn16
                split at h
                · exact absurd h (by simp)
                · rename_i hndig
                  injection h with h1
                  injection h1 with ha hb
                  subst ha
                  subst hb
                  refine ⟨rfl, hdig, rfl, hne, ?_, ?_⟩
                  · intro hg
                    constructor
                    · by_contra hlen
                      exact hn13 ⟨hg, hlen⟩
                    · by_contra hal
                      exact hnal ⟨hg, by simpa using hal⟩
                  · intro hp
                    constructor
                    · by_contra hlen
                      exact hn16 ⟨hp, hlen⟩
                    · by_contra hdg
                      exact hndig ⟨hp, by simpa using hdg⟩
      · rename_i hnd
        exfalso
        rcases not_not.1 hvalid with hg | hp | hc
        · exact hnd (Or.inl hg)
        · exact hnd (Or.inr hp)
        · exact hnc hc

/-- C8: `update_receipt` requires a reference number, strips whitespace
and dashes, rejects a gcash reference that is not exactly 13 alphanumeric
characters and a paymaya reference that is not exactly 16 digits, rejects
payment type cash, returns Conflict when the `(payment_method,
reference_number)` pair is already on a different active record (an error
response commits nothing, so both records are unchanged), and on success
stores the reference uppercased and sets `receipt_path`,
`payment_status = "Verifying"`, `status = "Processing"`,
`payment_method` and `payment_date` to the naive local time. -/
theorem C8_submit_receipt_behavior (db : ClearDB) (uid : Nat)
    (p : UpdateReceiptPayload) (now : Nat) :
    (pyStrip (pyLower p.payment_type) = "cash" →
      update_receipt db uid p now = .error ⟨400, "Cash payments do not require receipt upload. Please select Cash payment method and wait for officer confirmation."⟩) ∧
    ((pyStrip (pyLower p.payment_type) = "gcash" ∨ pyStrip (pyLower p.payment_type) = "paymaya") →
      pyStrip (p.reference_number.getD "") = "" →
      update_receipt db uid p now = .error ⟨400, "Reference number is required for GCash/PayMaya payments"⟩) ∧
    (pyStrip (pyLower p.payment_type) = "gcash" →
      pyStrip (p.reference_number.getD "") ≠ "" →
      (cleanRefFn (pyStrip (p.reference_number.getD ""))).length ≠ 13 →
      update_receipt db uid p now = .error ⟨400, "GCash reference number must be exactly 13 characters"⟩) ∧
    (pyStrip (pyLower p.payment_type) = "gcash" →
      pyStrip (p.reference_number.getD "") ≠ "" →
      (cleanRefFn (pyStrip (p.reference_number.getD ""))).length = 13 →
      pyIsAlnum (cleanRefFn (pyStrip (p.reference_number.getD ""))) = false →
      update_receipt db uid p now = .error ⟨400, "GCash reference number must contain only letters and numbers"⟩) ∧
    (pyStrip (pyLower p.payment_type) = "paymaya" →
      pyStrip (p.reference_number.getD "") ≠ "" →
      (cleanRefFn (pyStrip (p.reference_number.getD ""))).length ≠ 16 →
      update_receipt db uid p now = .error ⟨400, "Maya reference number must be exactly 16 digits"⟩) ∧
    (pyStrip (pyLower p.payment_type) = "paymaya" →
      pyStrip (p.reference_number.getD "") ≠ "" →
      (cleanRefFn (pyStrip (p.reference_number.getD ""))).length = 16 →
      pyIsDigit (cleanRefFn (pyStrip (p.reference_number.getD ""))) = false →
      update_receipt db uid p now = .error ⟨400, "Maya reference number must contain only numbers"⟩) ∧
    (∀ a b m x, updateReceiptValidate p = .ok (a, b) →
      db.clearances.find? (fun c =>
        decide (c.id = p.membership_id) && decide (c.user_id = uid) && !c.archived) = some m →
      db.clearances.find? (fun c =>
        !c.archived && decide (c.payment_method = some a) &&
        decide (c.reference_number = some b) && decide (c.id ≠ m.id)) = some x →
      update_receipt db uid p now = .error ⟨409, "Reference number already used. Please double-check your payment and enter the correct ref no."⟩) ∧
    (∀ d c, update_receipt db uid p now = .ok (d, c) →
      ∃ a m, (a = "gcash" ∨ a = "paymaya") ∧ a = pyStrip (pyLower p.payment_type) ∧
        db.clearances.find? (fun x =>
          decide (x.id = p.membership_id) && decide (x.user_id = uid) && !x.archived) = some m ∧
        c = submitFields m p.receipt_path a
          (pyUpper (cleanRefFn (pyStrip (p.reference_number.getD "")))) now ∧
        c.reference_number = some (pyUpper (cleanRefFn (pyStrip (p.reference_number.getD "")))) ∧
        c.receipt_path = some p.receipt_path ∧ c.payment_status = "Verifying" ∧
        c.status = "Processing" ∧ c.payment_method = some a ∧
        c.payment_date = some ⟨now, false⟩ ∧
        d.clearances = setClearance db.clearances c) := by
  refine ⟨?_, ?_, ?_, ?_, ?_, ?_, ?_, ?_⟩
  · intro hc
    have hv : updateReceiptValidate p = .error ⟨400, "Cash payments do not require receipt upload. Please select Cash payment method and wait for officer confirmation."⟩ := by
      unfold updateReceiptValidate
      rw [if_neg (not_not_intro (Or.inr (Or.inr hc))), if_pos hc]
    unfold update_receipt
    rw [hv]
  · intro hdig hre
    have hv : updateReceiptValidate p = .error ⟨400, "Reference number is required for GCash/PayMaya payments"⟩ := by
      unfold updateReceiptValidate
      rw [if_neg (not_not_intro (by rcases hdig with h | h
                                    · exact Or.inl h
                                    · exact Or.inr (Or.inl h))),
          if_neg (by rcases hdig with h | h <;> simp [h]),
          if_pos hdig, if_pos hre]
    unfold update_receipt
    rw [hv]
  · intro hg hre hlen
    have hv : updateReceiptValidate p = .error ⟨400, "GCash reference number must be exactly 13 characters"⟩ := by
      unfold updateReceiptValidate
      rw [if_neg (not_not_intro (Or.inl hg)), if_neg (by simp [hg]),
          if_pos (Or.inl hg), if_neg hre, if_pos ⟨hg, hlen⟩]
    unfold update_receipt
    rw [hv]
  · intro hg hre hlen hal
    have hv : updateReceiptValidate p = .error ⟨400, "GCash reference number must contain only letters and numbers"⟩ := by
      unfold updateReceiptValidate
      rw [if_neg (not_not_intro (Or.inl hg)), if_neg (by simp [hg]),
          if_pos (Or.inl hg), if_neg hre,
          if_neg (fun hh => hh.2 hlen), if_pos ⟨hg, by simp [hal]⟩]
    unfold update_receipt
    rw [hv]
  · intro hp hre hlen
    have hv : updateReceiptValidate p = .error ⟨400, "Maya reference number must be exactly 16 digits"⟩ := by
      unfold updateReceiptValidate
      rw [if_neg (not_not_intro (Or.inr (Or.inl hp))), if_neg (by simp [hp]),
          if_pos (Or.inr hp), if_neg hre,
          if_neg (by simp [hp]), if_neg (by simp [hp]), if_pos ⟨hp, hlen⟩]
    unfold update_receipt
    rw [hv]
  · intro hp hre hlen hdg
    have hv : updateReceiptValidate p = .error ⟨400, "Maya reference number must contain only numbers"⟩ := by
      unfold updateReceiptValidate
      rw [if_neg (not_not_intro (Or.inr (Or.inl hp))), if_neg (by simp [hp]),
          if_pos (Or.inr hp), if_neg hre,
          if_neg (by simp [hp]), if_neg (by simp [hp]),
          if_neg (fun hh => hh.2 hlen), if_pos ⟨hp, by simp [hdg]⟩]
    unfold update_receipt
    rw [hv]
  · intro a b m x hval hfm hconf
    have hdig := (updateReceiptValidate_ok hval).2.1
    unfold update_receipt
    rw [hval]
    dsimp only
    rw [hfm]
    dsimp only
    rw [if_pos hdig, hconf]
  · intro d c h
    unfold update_receipt at h
    split at h
    · exact absurd h (by simp)
    · rename_i pr a b hval
      obtain ⟨hnorm, hdig, hup, hne, hgc, hpm⟩ := updateReceiptValidate_ok hval
      split at h
      · exact absurd h (by simp)
      · rename_i m hfm
        split at h
        · exact absurd h (by simp)
        · split at h
          · injection h with h1
            injection h1 with hd hc
            subst hc
            subst hup
            refine ⟨a, m, hdig, hnorm, hfm, rfl, ?_, rfl, rfl, rfl, rfl, rfl, by rw [← hd]⟩
            unfold submitFields
            dsimp only
            rw [if_pos hdig]
          · exact absurd h (by simp)

theorem C8_submit_receipt_behavior_witness :
    update_receipt ⟨[⟨1, "Juan"⟩], [c2target], 3⟩ 1
      ⟨2, "GCash ", "http://r", some "abcd-12345-wxyz"⟩ 7 =
      .ok (⟨[⟨1, "Juan"⟩], [submitFields c2target "http://r" "gcash" "ABCD12345WXYZ" 7], 3⟩,
           submitFields c2target "http://r" "gcash" "ABCD12345WXYZ" 7) ∧
    (∃ a m, (a = "gcash" ∨ a = "paymaya") ∧
      a = pyStrip (pyLower "GCash ") ∧
      (ClearDB.clearances ⟨[⟨1, "Juan"⟩], [c2target], 3⟩).find? (fun x =>
        decide (x.id = 2) && decide (x.user_id = 1) && !x.archived) = some m ∧
      submitFields c2target "http://r" "gcash" "ABCD12345WXYZ" 7 =
        submitFields m "http://r" a
          (pyUpper (cleanRefFn (pyStrip ((some "abcd-12345-wxyz").getD "")))) 7 ∧
      (submitFields c2target "http://r" "gcash" "ABCD12345WXYZ" 7).reference_number =
        some (pyUpper (cleanRefFn (pyStrip ((some "abcd-12345-wxyz").getD "")))) ∧
      (submitFields c2target "http://r" "gcash" "ABCD12345WXYZ" 7).receipt_path = some "http://r" ∧
      (submitFields c2target "http://r" "gcash" "ABCD12345WXYZ" 7).payment_status = "Verifying" ∧
      (submitFields c2target "http://r" "gcash" "ABCD12345WXYZ" 7).status = "Processing" ∧
      (submitFields c2target "http://r" "gcash" "ABCD12345WXYZ" 7).payment_method = some a ∧
      (submitFields c2target "http://r" "gcash" "ABCD12345WXYZ" 7).payment_date = some ⟨7, false⟩ ∧
      (ClearDB.clearances ⟨[⟨1, "Juan"⟩],
        [submitFields c2target "http://r" "gcash" "ABCD12345WXYZ" 7], 3⟩) =
        setClearance (ClearDB.clearances ⟨[⟨1, "Juan"⟩], [c2target], 3⟩)
          (submitFields c2target "http://r" "gcash" "ABCD12345WXYZ" 7)) :=
  ⟨by decide,
   (C8_submit_receipt_behavior ⟨[⟨1, "Juan"⟩], [c2target], 3⟩ 1
      ⟨2, "GCash ", "http://r", some "abcd-12345-wxyz"⟩ 7).2.2.2.2.2.2.2
     ⟨[⟨1, "Juan"⟩], [submitFields c2target "http://r" "gcash" "ABCD12345WXYZ" 7], 3⟩
     (submitFields c2target "http://r" "gcash" "ABCD12345WXYZ" 7) (by decide)⟩

/-! ## Properties of the bulk issuance loop -/

/-- A successful per-user iteration means none of that user's steps
raised, and the produced row belongs to that user and event. -/
theorem perUser_ok_err {o : BulkOracle} {fuel eid : Nat} {title : String}
    {used : List String} {u : CUser} {cert : Cert}
    (h : perUser o fuel eid title used u = some (.ok cert)) :
    userErr o u.id = none ∧ cert.user_id = u.id ∧ cert.event_id = eid := by
  unfold perUser at h
  unfold userErr
  split at h
  · exact absurd h (by simp)
  · split at h
    · exact absurd h (by simp)
    · rename_i h1
      split at h
      · exact absurd h (by simp)
      · rename_i h2
        split at h
        · exact absurd h (by simp)
        · rename_i url h3
          split at h
          · exact absurd h (by simp)
          · rename_i ts h4
            injection h with h5
            injection h5 with h6
            subst h6
            exact ⟨rfl, rfl, rfl⟩

/-- A failed per-user iteration records exactly the first raised error of
that user's own steps. -/
theorem perUser_err_err {o : BulkOracle} {fuel eid : Nat} {title : String}
    {used : List String} {u : CUser} {e : String}
    (h : perUser o fuel eid title used u = some (.error e)) :
    userErr o u.id = some e := by
  unfold perUser at h
  unfold userErr
  split at h
  · exact absurd h (by simp)
  · split at h
    · rename_i h1
      injection h with h5
      injection h5 with h6
      subst h6
      rfl
    · rename_i h1
      split at h
      · rename_i h2
        injection h with h5
        injection h5 with h6
        subst h6
        rfl
      · rename_i h2
        split at h
        · rename_i h3
          injection h with h5
          injection h5 with h6
          subst h6
          rfl
        · rename_i url h3
          split at h
          · rename_i h4
            injection h with h5
            injection h5 with h6
            subst h6
            rfl
          · exact absurd h (by simp)

/-- What the bulk loop guarantees when it terminates: it only appends
certificate rows, accumulated failure entries survive, every user whose
own steps raise lands in the failure list with their id, name and error,
and every user whose own steps all succeed gets a certificate row. -/
theorem bulkLoop_spec (o : BulkOracle) (fuel eid : Nat) (title : String) :
    ∀ (us : List CUser) (certs0 : List Cert) (g f : Nat) (fus : List FailedEntry)
      (certs1 : List Cert) (g1 f1 : Nat) (fus1 : List FailedEntry),
      bulkLoop o fuel eid title us certs0 g f fus = some (certs1, g1, f1, fus1) →
      (∃ t, certs1 = certs0 ++ t) ∧
      (∀ x ∈ fus, x ∈ fus1) ∧
      (∀ u ∈ us, ∀ e, userErr o u.id = some e →
        (⟨u.id, u.full_name, e⟩ : FailedEntry) ∈ fus1) ∧
      (∀ u ∈ us, userErr o u.id = none →
        ∃ cert ∈ certs1, cert.user_id = u.id ∧ cert.event_id = eid) := by
  intro us
  induction us with
  | nil =>
    intro certs0 g f fus certs1 g1 f1 fus1 h
    unfold bulkLoop at h
    injection h with h1
    injection h1 with hc h2
    injection h2 with hg h3
    injection h3 with hf hfus
    subst hc
    subst hfus
    exact ⟨⟨[], by simp⟩, fun x hx => hx, fun u hu => absurd hu (by simp),
      fun u hu => absurd hu (by simp)⟩
  | cons u rest ih =>
    intro certs0 g f fus certs1 g1 f1 fus1 h
    unfold bulkLoop at h
    split at h
    · exact absurd h (by simp)
    · rename_i e heq
      obtain ⟨⟨t, hpre⟩, hmono, hfail, hsucc⟩ := ih certs0 g (f + 1)
        (fus ++ [⟨u.id, u.full_name, e⟩]) certs1 g1 f1 fus1 h
      have hue := perUser_err_err heq
      refine ⟨⟨t, hpre⟩, ?_, ?_, ?_⟩
      · intro x hx
        exact hmono x (List.mem_append_left _ hx)
      · intro u0 hu0 e0 he0
        rcases List.mem_cons.1 hu0 with rfl | hu0
        · rw [hue] at he0
          injection he0 with he0
          subst he0
          exact hmono _ (List.mem_append_right _ (List.mem_singleton.2 rfl))
        · exact hfail u0 hu0 e0 he0
      · intro u0 hu0 hn
        rcases List.mem_cons.1 hu0 with rfl | hu0
        · rw [hue] at hn
          exact absurd hn (by simp)
        · exact hsucc u0 hu0 hn
    · rename_i cert heq
      obtain ⟨⟨t, hpre⟩, hmono, hfail, hsucc⟩ := ih (certs0 ++ [cert]) (g + 1) f
        fus certs1 g1 f1 fus1 h
      obtain ⟨hue, huid, heid⟩ := perUser_ok_err heq
      refine ⟨⟨[cert] ++ t, by rw [hpre]; simp⟩, hmono, ?_, ?_⟩
      · intro u0 hu0 e0 he0
        rcases List.mem_cons.1 hu0 with rfl | hu0
        · rw [hue] at he0
          exact absurd he0 (by simp)
        · exact hfail u0 hu0 e0 he0
      · intro u0 hu0 hn
        rcases List.mem_cons.1 hu0 with rfl | hu0
        · refine ⟨cert, ?_, huid, heid⟩
          rw [hpre]
          exact List.mem_append_left _ (List.mem_append_right _ (List.mem_singleton.2 rfl))
        · exact hsucc u0 hu0 hn

/-- If every user in the batch has a failing step of their own, the loop
issues nothing: the certificate table and the generated count are
untouched. -/
theorem bulkLoop_all_err (o : BulkOracle) (fuel eid : Nat) (title : String) :
    ∀ (us : List CUser) (certs0 : List Cert) (g f : Nat) (fus : List FailedEntry)
      (certs1 : List Cert) (g1 f1 : Nat) (fus1 : List FailedEntry),
      (∀ u ∈ us, userErr o u.id ≠ none) →
      bulkLoop o fuel eid title us certs0 g f fus = some (certs1, g1, f1, fus1) →
      certs1 = certs0 ∧ g1 = g := by
  intro us
  induction us with
  | nil =>
    intro certs0 g f fus certs1 g1 f1 fus1 hall h
    unfold bulkLoop at h
    injection h with h1
    injection h1 with hc h2
    injection h2 with hg h3
    subst hc
    subst hg
    exact ⟨rfl, rfl⟩
  | cons u rest ih =>
    intro certs0 g f fus certs1 g1 f1 fus1 hall h
    unfold bulkLoop at h
    split at h
    · exact absurd h (by simp)
    · rename_i e heq
      exact ih certs0 g (f + 1) (fus ++ [⟨u.id, u.full_name, e⟩]) certs1 g1 f1 fus1
        (fun v hv => hall v (List.mem_cons_of_mem _ hv)) h
    · rename_i cert heq
      exact absurd (perUser_ok_err heq).1 (hall u (List.mem_cons_self _ _))

/-- The database for the C4 failing input: one non-archived event with an
active template and one checked-in participant without a certificate. -/
def c4db : CertDB :=
  { users := [⟨1, "Juan Cruz"⟩],
    events := [⟨1, "Seminar", false⟩],
    templates := [⟨1, "http://t", false⟩],
    attendance := [⟨1, 1, some ⟨0, false⟩, false⟩],
    certs := [] }

/-- An environment in which every external step succeeds; the timestamp
step is the one the shipped source performs (`tsStepSrc`), which raises
`NameError` because certificates.py never imports `timedelta`. -/
def c4oracle : BulkOracle :=
  { templateLoad := .ok ()
    render := fun _ => .ok ()
    toPdf := fun _ => .ok ()
    upload := fun _ => .ok "http://c"
    tsStep := tsStepSrc
    codeStream := fun _ _ => "SPECS-AAAA-BBBB-CCCC" }

/-- C4: with code generation, rendering, PDF conversion and upload all
succeeding, the shipped per-user body still fails for every user — the
issuance-timestamp expression at certificates.py line 242 raises
`NameError` (`timedelta` is not imported in that module), the exception
handler rolls the user back, and no `ECertificate` row is ever persisted;
the aggregate report counts the user as failed. -/
theorem C4_missing_timedelta :
    generate_bulk_certificates c4oracle 10 c4db 1 =
      some (.ok ({ generated_count := 0, failed_count := 1,
                   failed_users := [⟨1, "Juan Cruz", "NameError: name timedelta is not defined"⟩],
                   eligible_user_ids := [1] }, c4db)) := by
  decide

/-- C6: a failure while processing one eligible user never aborts the
batch: whenever the bulk call returns, every eligible user whose own
steps raised lands in `failed_users` with their id, name and the error
text, and every eligible user whose own steps all succeeded has a
persisted certificate row — regardless of the other users' outcomes. -/
theorem C6_bulk_failure_isolation (o : BulkOracle) (fuel : Nat) (db : CertDB)
    (eid : Nat) (r : BulkReport) (s' : CertDB) (el : List CUser)
    (h : generate_bulk_certificates o fuel db eid = some (.ok (r, s')))
    (hel : get_eligible_users db eid = .ok el) :
    ∀ u ∈ el,
      (∀ e, userErr o u.id = some e →
        (⟨u.id, u.full_name, e⟩ : FailedEntry) ∈ r.failed_users) ∧
      (userErr o u.id = none →
        ∃ cert ∈ s'.certs, cert.user_id = u.id ∧ cert.event_id = eid) := by
  unfold generate_bulk_certificates at h
  split at h
  · exact absurd h (by simp)
  · rename_i event hevent
    split at h
    · exact absurd h (by simp)
    · rename_i tpl htpl
      split at h
      · exact absurd h (by simp)
      · rename_i eligible helig
        rw [hel] at helig
        injection helig with helig
        subst helig
        split at h
        · rename_i hempty
          intro u hu
          rw [hempty] at hu
          exact absurd hu (by simp)
        · split at h
          · exact absurd h (by simp)
          · split at h
            · exact absurd h (by simp)
            · rename_i out certs1 g1 f1 fus1 heq
              injection h with h1
              injection h1 with h2
              injection h2 with hr hs
              subst hr
              subst hs
              obtain ⟨hpre, hmono, hfail, hsucc⟩ :=
                bulkLoop_spec o fuel eid event.title el db.certs 0 0 [] certs1 g1 f1 fus1 heq
              intro u hu
              exact ⟨fun e he => hfail u hu e he, fun hn => hsucc u hu hn⟩

def c6db : CertDB :=
  { users := [⟨1, "A"⟩, ⟨2, "B"⟩],
    events := [⟨1, "Expo", false⟩],
    templates := [⟨1, "t", false⟩],
    attendance := [⟨1, 1, some ⟨0, false⟩, false⟩, ⟨1, 2, none, true⟩],
    certs := [] }

/-- An environment in which user 1's rendering raises and user 2's steps
all succeed (timestamp step included). -/
def c6oracle : BulkOracle :=
  { templateLoad := .ok ()
    render := fun uid => if uid = 1 then .error "render boom" else .ok ()
    toPdf := fun _ => .ok ()
    upload := fun _ => .ok "http://c"
    tsStep := .ok ⟨5, false⟩
    codeStream := fun uid _ => "SPECS-" ++ toString uid }

def c6rep : BulkReport :=
  { generated_count := 1, failed_count := 1,
    failed_users := [⟨1, "A", "render boom"⟩], eligible_user_ids := [1, 2] }

def c6out : CertDB :=
  { c6db with certs := [⟨2, 1, "http://c", generate_certificate_filename "Expo" "B",
    ⟨5, false⟩, "SPECS-2"⟩] }

theorem C6_bulk_failure_isolation_witness :
    generate_bulk_certificates c6oracle 10 c6db 1 = some (.ok (c6rep, c6out)) ∧
    (⟨1, "A", "render boom"⟩ : FailedEntry) ∈ c6rep.failed_users ∧
    (∃ cert ∈ c6out.certs, cert.user_id = 2 ∧ cert.event_id = 1) := by
  refine ⟨by decide, ?_, ?_⟩
  · exact ((C6_bulk_failure_isolation c6oracle 10 c6db 1 c6rep c6out [⟨1, "A"⟩, ⟨2, "B"⟩]
      (by decide) (by decide)) ⟨1, "A"⟩ (by decide)).1 "render boom" rfl
  · exact ((C6_bulk_failure_isolation c6oracle 10 c6db 1 c6rep c6out [⟨1, "A"⟩, ⟨2, "B"⟩]
      (by decide) (by decide)) ⟨2, "B"⟩ (by decide)).2 rfl

/-- Attendance-based eligibility: the user has a row for the event with a
check-in or a completed evaluation (certificate_service.py lines 184-190). -/
def attEligible (db : CertDB) (eid uid : Nat) : Prop :=
  ∃ a ∈ db.attendance, a.event_id = eid ∧ a.user_id = uid ∧
    (a.checked_in_at.isSome = true ∨ a.evaluation_completed = true)

/-- The user already holds an `ECertificate` for the event. -/
def hasCert (db : CertDB) (eid uid : Nat) : Prop :=
  ∃ cert ∈ db.certs, cert.user_id = uid ∧ cert.event_id = eid

theorem mem_eligIds_iff {att : List Attendance} {eid uid : Nat} :
    uid ∈ (att.filter (fun a => a.event_id = eid &&
      (a.checked_in_at.isSome || a.evaluation_completed))).map (fun a => a.user_id) ↔
    ∃ a ∈ att, a.event_id = eid ∧ a.user_id = uid ∧
      (a.checked_in_at.isSome = true ∨ a.evaluation_completed = true) := by
  rw [List.mem_map]
  constructor
  · rintro ⟨a, ha, rfl⟩
    obtain ⟨ha1, ha2⟩ := List.mem_filter.1 ha
    simp only [Bool.and_eq_true, Bool.or_eq_true, decide_eq_true_eq] at ha2
    exact ⟨a, ha1, ha2.1, rfl, ha2.2⟩
  · rintro ⟨a, ha, he, hu, hc⟩
    refine ⟨a, List.mem_filter.2 ⟨ha, ?_⟩, hu⟩
    simp only [Bool.and_eq_true, Bool.or_eq_true, decide_eq_true_eq]
    exact ⟨he, hc⟩

theorem mem_certIds_iff {certs : List Cert} {eid uid : Nat} :
    uid ∈ (certs.filter (fun c => c.event_id = eid)).map (fun c => c.user_id) ↔
    ∃ cert ∈ certs, cert.user_id = uid ∧ cert.event_id = eid := by
  rw [List.mem_map]
  constructor
  · rintro ⟨c, hc, rfl⟩
    obtain ⟨hc1, hc2⟩ := List.mem_filter.1 hc
    simp only [decide_eq_true_eq] at hc2
    exact ⟨c, hc1, rfl, hc2⟩
  · rintro ⟨c, hc, hu, he⟩
    exact ⟨c, List.mem_filter.2 ⟨hc, by simp [he]⟩, hu⟩

/-- Membership in the eligible list returned by `get_eligible_users`:
exactly the stored users with qualifying attendance and no certificate
for the event. -/
theorem elig_mem_iff {db : CertDB} {eid : Nat} {el : List CUser}
    (h : get_eligible_users db eid = .ok el) (u : CUser) :
    u ∈ el ↔ u ∈ db.users ∧ attEligible db eid u.id ∧ ¬ hasCert db eid u.id := by
  unfold get_eligible_users at h
  split at h
  · exact absurd h (by simp)
  · unfold_let at h
    split at h
    · rename_i hempty
      injection h with h1
      subst h1
      simp only [List.not_mem_nil, false_iff]
      rintro ⟨hu, hatt, hnc⟩
      have : u.id ∈ (db.attendance.filter (fun a => a.event_id = eid &&
          (a.checked_in_at.isSome || a.evaluation_completed))).map (fun a => a.user_id) :=
        mem_eligIds_iff.2 hatt
      rw [hempty] at this
      exact absurd this (by simp)
    · split at h
      · rename_i hempty2
        injection h with h1
        subst h1
        simp only [List.not_mem_nil, false_iff]
        rintro ⟨hu, hatt, hnc⟩
        have hin : u.id ∈ (db.attendance.filter (fun a => a.event_id = eid &&
            (a.checked_in_at.isSome || a.evaluation_completed))).map (fun a => a.user_id) :=
          mem_eligIds_iff.2 hatt
        have hout : u.id ∉ (db.certs.filter (fun c => c.event_id = eid)).map
            (fun c => c.user_id) := fun hmem => hnc (mem_certIds_iff.1 hmem)
        have : u.id ∈ ((db.attendance.filter (fun a => a.event_id = eid &&
            (a.checked_in_at.isSome || a.evaluation_completed))).map
              (fun a => a.user_id)).filter (fun i =>
                !(decide (i ∈ (db.certs.filter (fun c => c.event_id = eid)).map
                  (fun c => c.user_id)))) :=
          List.mem_filter.2 ⟨hin, by simp [hout]⟩
        rw [hempty2] at this
        exact absurd this (by simp)
      · injection h with h1
        subst h1
        rw [List.mem_filter]
        constructor
        · rintro ⟨hu, hdec⟩
          simp only [decide_eq_true_eq] at hdec
          obtain ⟨hin, hnotc⟩ := List.mem_filter.1 hdec
          simp only [Bool.not_eq_eq_eq_not, Bool.not_true, decide_eq_false_iff_not] at hnotc
          exact ⟨hu, mem_eligIds_iff.1 hin, fun hc => hnotc (mem_certIds_iff.2 hc)⟩
        · rintro ⟨hu, hatt, hnc⟩
          refine ⟨hu, ?_⟩
          simp only [decide_eq_true_eq]
          refine List.mem_filter.2 ⟨mem_eligIds_iff.2 hatt, ?_⟩
          simp only [Bool.not_eq_eq_eq_not, Bool.not_true, decide_eq_false_iff_not]
          exact fun hmem => hnc (mem_certIds_iff.1 hmem)

/-- C5: eligibility resolution never returns a user who already holds an
`ECertificate` for the event; and running `generate_bulk_certificates` a
second time immediately after a run (same environment) generates zero new
certificates and leaves the first run's issued certificates unchanged. -/
theorem C5_eligibility_idempotence :
    (∀ (db : CertDB) (eid : Nat) (el : List CUser) (u : CUser),
      get_eligible_users db eid = .ok el → u ∈ el → ¬ hasCert db eid u.id) ∧
    (∀ (o : BulkOracle) (fuel : Nat) (db : CertDB) (eid : Nat)
       (r1 r2 : BulkReport) (s1 s2 : CertDB),
      generate_bulk_certificates o fuel db eid = some (.ok (r1, s1)) →
      generate_bulk_certificates o fuel s1 eid = some (.ok (r2, s2)) →
      r2.generated_count = 0 ∧ s2.certs = s1.certs) := by
  constructor
  · intro db eid el u h hu
    exact ((elig_mem_iff h u).1 hu).2.2
  · intro o fuel db eid r1 r2 s1 s2 h1 h2
    unfold generate_bulk_certificates at h1
    split at h1
    · exact absurd h1 (by simp)
    · rename_i event hevent
      split at h1
      · exact absurd h1 (by simp)
      · rename_i tpl htpl
        split at h1
        · exact absurd h1 (by simp)
        · rename_i el1 helig1
          split at h1
          · rename_i hempty1
            subst hempty1
            injection h1 with h1a
            injection h1a with h1b
            injection h1b with hr1 hs1
            subst hs1
            unfold generate_bulk_certificates at h2
            rw [hevent] at h2
            dsimp only at h2
            rw [htpl] at h2
            dsimp only at h2
            rw [helig1] at h2
            dsimp only at h2
            rw [if_pos rfl] at h2
            injection h2 with h2a
            injection h2a with h2b
            injection h2b with hr2 hs2
            subst hr2
            subst hs2
            exact ⟨rfl, rfl⟩
          · rename_i hne1
            split at h1
            · exact absurd h1 (by simp)
            · rename_i htl
              split at h1
              · exact absurd h1 (by simp)
              · rename_i out certs1 g1 f1 fus1 heq1
                injection h1 with h1a
                injection h1a with h1b
                injection h1b with hr1 hs1
                subst hr1
                subst hs1
                obtain ⟨⟨t1, hpre1⟩, _, _, hsucc1⟩ :=
                  bulkLoop_spec o fuel eid event.title el1 db.certs 0 0 []
                    certs1 g1 f1 fus1 heq1
                unfold generate_bulk_certificates at h2
                dsimp only at h2
                rw [hevent] at h2
                dsimp only at h2
                rw [htpl] at h2
                dsimp only at h2
                split at h2
                · exact absurd h2 (by simp)
                · rename_i el2 helig2
                  have hall : ∀ u ∈ el2, userErr o u.id ≠ none := by
                    intro u hu hn
                    have hm2 := (elig_mem_iff helig2 u).1 hu
                    have hnc1 : ¬ hasCert { db with certs := certs1 } eid u.id := hm2.2.2
                    have hm1 : u ∈ el1 := by
                      refine (elig_mem_iff helig1 u).2 ⟨hm2.1, hm2.2.1, ?_⟩
                      rintro ⟨cert, hc, hcu, hce⟩
                      refine hnc1 ⟨cert, ?_, hcu, hce⟩
                      show cert ∈ certs1
                      rw [hpre1]
                      exact List.mem_append_left _ hc
                    obtain ⟨cert, hc, hcu, hce⟩ := hsucc1 u hm1 hn
                    exact hnc1 ⟨cert, hc, hcu, hce⟩
                  split at h2
                  · rename_i hempty2
                    injection h2 with h2a
                    injection h2a with h2b
                    injection h2b with hr2 hs2
                    subst hr2
                    subst hs2
                    exact ⟨rfl, rfl⟩
                  · split at h2
                    · exact absurd h2 (by simp)
                    · split at h2
                      · exact absurd h2 (by simp)
                      · rename_i out2 certs2 g2 f2 fus2 heq2
                        injection h2 with h2a
                        injection h2a with h2b
                        injection h2b with hr2 hs2
                        subst hr2
                        subst hs2
                        obtain ⟨hcerts2, hg2⟩ :=
                          bulkLoop_all_err o fuel eid event.title el2 certs1 0 0 []
                            certs2 g2 f2 fus2 hall heq2
                        exact ⟨hg2, by rw [hcerts2]⟩

def c5rep2 : BulkReport :=
  { generated_count := 0, failed_count := 1,
    failed_users := [⟨1, "A", "render boom"⟩], eligible_user_ids := [1] }

theorem C5_eligibility_idempotence_witness :
    (¬ hasCert c6db 1 1) ∧
    generate_bulk_certificates c6oracle 10 c6db 1 = some (.ok (c6rep, c6out)) ∧
    generate_bulk_certificates c6oracle 10 c6out 1 = some (.ok (c5rep2, c6out)) ∧
    c5rep2.generated_count = 0 ∧ c6out.certs = c6out.certs :=
  ⟨C5_eligibility_idempotence.1 c6db 1 [⟨1, "A"⟩, ⟨2, "B"⟩] ⟨1, "A"⟩ (by decide) (by decide),
   by decide, by decide,
   (C5_eligibility_idempotence.2 c6oracle 10 c6db 1 c6rep c5rep2 c6out c6out
     (by decide) (by decide)).1,
   (C5_eligibility_idempotence.2 c6oracle 10 c6db 1 c6rep c5rep2 c6out c6out
     (by decide) (by decide)).2⟩
